import Mathlib

/-!
A shallow embedding of the Open Surge physics actor (physicsactor.c) in Lean 4.
C float arithmetic is modelled exactly over the rationals; C int arithmetic over Int.
The obstacle map, sensor primitive and input device are external collaborators of the
actor (spec sections 6.1-6.3) and are modelled as explicit parameters / plain data.
-/

set_option maxRecDepth 8000

namespace OpenSurge

/-- 2D vector (v2d_t); float components modelled exactly as rationals. -/
structure V2 where
  x : ℚ
  y : ℚ
  deriving Repr, DecidableEq

/-- Integer point (point2d_t). -/
structure Point where
  x : Int
  y : Int
  deriving Repr, DecidableEq

/-- Movement modes (movmode_t). -/
inductive MM where
  | floor
  | leftwall
  | ceiling
  | rightwall
  deriving Repr, DecidableEq

/-- Animation states (physicsactorstate_t). -/
inductive PAS where
  | stopped
  | waiting
  | walking
  | running
  | jumping
  | rolling
  | pushing
  | gettinghit
  | braking
  | lookingup
  | ducking
  | charging
  | springing
  | breathing
  | ledge
  | winning
  | dead
  | drowned
  deriving Repr, DecidableEq

/-- Ground directions (GD_DOWN, GD_UP, GD_LEFT, GD_RIGHT). -/
inductive GD where
  | down
  | up
  | left
  | right
  deriving Repr, DecidableEq

/-- Modelled from the spec: an obstacle of the obstacle map (obstacle.h is not in src).
It exposes solidity, a directional ground position and a point-collision test
(spec section 6.1). The id models the C pointer identity used by comparisons such as
at_A != at_B and ga == gb. -/
structure Obstacle where
  id : Nat
  solid : Bool
  ground_position : Int -> Int -> GD -> Int
  point_collision : Int -> Int -> Bool

/-- Modelled from the spec: the obstacle map interface (obstaclemap.h is not in src;
spec section 6.1). Layers are opaque tags, modelled as naturals. -/
structure ObstacleMap where
  best_obstacle_at : Int -> Int -> Int -> Int -> MM -> Nat -> Option Obstacle
  obstacle_exists : Int -> Int -> Nat -> Bool

/-- Modelled from the spec: the six-button input device (input.h is not in src;
spec section 6.3), with per-button held ("down") and edge ("pressed") flags. -/
structure InputState where
  right_down : Bool := false
  left_down : Bool := false
  up_down : Bool := false
  down_down : Bool := false
  fire1_down : Bool := false
  right_pressed : Bool := false
  left_pressed : Bool := false
  up_pressed : Bool := false
  down_pressed : Bool := false
  fire1_pressed : Bool := false
  deriving Repr, DecidableEq

/-- Modelled from the spec: input_reset clears all buttons (spec section 6.3). -/
def input_reset (_ : InputState) : InputState := {}

/-- Modelled from the spec: input_disable clears the device (spec section 6.3). -/
def input_disable (_ : InputState) : InputState := {}

/-- Modelled from the spec: input_simulate_button_down on IB_LEFT. -/
def input_simulate_left_down (i : InputState) : InputState := { i with left_down := true }

/-- Modelled from the spec: input_simulate_button_down on IB_RIGHT. -/
def input_simulate_right_down (i : InputState) : InputState := { i with right_down := true }

/-- Modelled from the spec: input_simulate_button_up on IB_LEFT. -/
def input_simulate_left_up (i : InputState) : InputState := { i with left_down := false }

/-- Modelled from the spec: input_simulate_button_up on IB_RIGHT. -/
def input_simulate_right_up (i : InputState) : InputState := { i with right_down := false }

/-- An axis-aligned sensor segment in sprite-local coordinates (sensor.h). The color and
the stored enabled flag are omitted: update_sensors always sets the enabled flags right
before reading, so they are passed explicitly to sensor_check below. -/
structure Sensor where
  x1 : Int
  y1 : Int
  x2 : Int
  y2 : Int
  deriving Repr, DecidableEq

/-- Modelled from the spec: vertical sensor constructor (sensor.c is not in src). -/
def sensor_create_vertical (x y1 y2 : Int) : Sensor := ⟨x, y1, x, y2⟩

/-- Modelled from the spec: horizontal sensor constructor (sensor.c is not in src). -/
def sensor_create_horizontal (y x1 x2 : Int) : Sensor := ⟨x1, y, x2, y⟩

/-- The C min macro: (a) < (b) ? (a) : (b). -/
def qmin (a b : ℚ) : ℚ := if a < b then a else b

/-- The C max macro: (a) > (b) ? (a) : (b). -/
def qmax (a b : ℚ) : ℚ := if a > b then a else b

/-- Modelled from the spec: clamp helper from util (not in src). -/
def clip (val lo hi : ℚ) : ℚ := qmax lo (qmin val hi)

/-- Modelled from the spec: clamp to the unit interval, from util (not in src). -/
def clip01 (val : ℚ) : ℚ := clip val 0 1

/-- Modelled from the spec: sign helper from util (not in src): 1 for nonnegative
arguments and -1 otherwise. -/
def sign (x : ℚ) : ℚ := if 0 ≤ x then 1 else -1

/-- Modelled from the spec: near-zero test from util (not in src). -/
def nearly_zero (x : ℚ) : Bool := |x| < 1 / 100000

/-- A C float-to-int cast: truncation toward zero. -/
def ctrunc (q : ℚ) : Int := if 0 ≤ q then ⌊q⌋ else -⌊-q⌋

/-- Heron iteration for the integer square root, with explicit fuel (the fuel m + 1
always suffices since the iterate strictly decreases; the early exit keeps the actual
depth logarithmic). -/
def nat_sqrt_iter (m : Nat) : Nat → Nat → Nat
  | 0, x => x
  | Nat.succ fuel, x =>
    let next := (x + m / x) / 2
    if next ≥ x then x else nat_sqrt_iter m fuel next

/-- Integer square root (the floor of the square root of m). -/
def nat_sqrt (m : Nat) : Nat :=
  if m ≤ 1 then m else nat_sqrt_iter m (m + 1) m

/-- Ceiling of the square root of a nonnegative rational: models (int)ceilf applied to
the magnitude of a vector (x, y) when called on x*x + y*y. -/
def ceil_sqrt (q : ℚ) : Int :=
  if q ≤ 0 then 0
  else
    let n : Nat := nat_sqrt ⌈q⌉.toNat
    if q ≤ ((n : ℚ) * (n : ℚ)) then (n : Int) else (n : Int) + 1

/-- CLOUD_OFFSET constant. -/
def CLOUD_OFFSET : Int := 12

/-- TARGET_FPS constant. -/
def TARGET_FPS : ℚ := 60

/-- FIXED_TIMESTEP constant (1/TARGET_FPS). -/
def FIXED_TIMESTEP : ℚ := 1 / TARGET_FPS

/-- The 256-entry cosine table (angles are 1/256 of a turn, clockwise). -/
def cos_table : Array ℚ := #[
  1.00000, 0.99970, 0.99880, 0.99729, 0.99518, 0.99248, 0.98918, 0.98528,
  0.98079, 0.97570, 0.97003, 0.96378, 0.95694, 0.94953, 0.94154, 0.93299,
  0.92388, 0.91421, 0.90399, 0.89322, 0.88192, 0.87009, 0.85773, 0.84485,
  0.83147, 0.81758, 0.80321, 0.78835, 0.77301, 0.75721, 0.74095, 0.72425,
  0.70711, 0.68954, 0.67156, 0.65317, 0.63439, 0.61523, 0.59570, 0.57581,
  0.55557, 0.53500, 0.51410, 0.49290, 0.47140, 0.44961, 0.42755, 0.40524,
  0.38268, 0.35990, 0.33689, 0.31368, 0.29028, 0.26671, 0.24298, 0.21910,
  0.19509, 0.17096, 0.14673, 0.12241, 0.09802, 0.07356, 0.04907, 0.02454,
  0.00000, -0.02454, -0.04907, -0.07356, -0.09802, -0.12241, -0.14673, -0.17096,
  -0.19509, -0.21910, -0.24298, -0.26671, -0.29028, -0.31368, -0.33689, -0.35990,
  -0.38268, -0.40524, -0.42755, -0.44961, -0.47140, -0.49290, -0.51410, -0.53500,
  -0.55557, -0.57581, -0.59570, -0.61523, -0.63439, -0.65317, -0.67156, -0.68954,
  -0.70711, -0.72425, -0.74095, -0.75721, -0.77301, -0.78835, -0.80321, -0.81758,
  -0.83147, -0.84485, -0.85773, -0.87009, -0.88192, -0.89322, -0.90399, -0.91421,
  -0.92388, -0.93299, -0.94154, -0.94953, -0.95694, -0.96378, -0.97003, -0.97570,
  -0.98079, -0.98528, -0.98918, -0.99248, -0.99518, -0.99729, -0.99880, -0.99970,
  -1.00000, -0.99970, -0.99880, -0.99729, -0.99518, -0.99248, -0.98918, -0.98528,
  -0.98079, -0.97570, -0.97003, -0.96378, -0.95694, -0.94953, -0.94154, -0.93299,
  -0.92388, -0.91421, -0.90399, -0.89322, -0.88192, -0.87009, -0.85773, -0.84485,
  -0.83147, -0.81758, -0.80321, -0.78835, -0.77301, -0.75721, -0.74095, -0.72425,
  -0.70711, -0.68954, -0.67156, -0.65317, -0.63439, -0.61523, -0.59570, -0.57581,
  -0.55557, -0.53500, -0.51410, -0.49290, -0.47140, -0.44961, -0.42756, -0.40524,
  -0.38268, -0.35990, -0.33689, -0.31368, -0.29028, -0.26671, -0.24298, -0.21910,
  -0.19509, -0.17096, -0.14673, -0.12241, -0.09802, -0.07356, -0.04907, -0.02454,
  -0.00000, 0.02454, 0.04907, 0.07356, 0.09802, 0.12241, 0.14673, 0.17096,
  0.19509, 0.21910, 0.24298, 0.26671, 0.29028, 0.31368, 0.33689, 0.35990,
  0.38268, 0.40524, 0.42756, 0.44961, 0.47140, 0.49290, 0.51410, 0.53500,
  0.55557, 0.57581, 0.59570, 0.61523, 0.63439, 0.65317, 0.67156, 0.68954,
  0.70711, 0.72425, 0.74095, 0.75721, 0.77301, 0.78835, 0.80321, 0.81758,
  0.83147, 0.84485, 0.85773, 0.87009, 0.88192, 0.89322, 0.90399, 0.91421,
  0.92388, 0.93299, 0.94154, 0.94953, 0.95694, 0.96378, 0.97003, 0.97570,
  0.98079, 0.98528, 0.98918, 0.99248, 0.99518, 0.99729, 0.99880, 0.99970]
/-- COS macro: cos_table[(a) & 0xFF]; the C mask & 0xFF equals emod 256. -/
def COS (a : Int) : ℚ := cos_table.getD (a.emod 256).toNat 0

/-- SIN macro: cos_table[((a) + 0x40) & 0xFF]. -/
def SIN (a : Int) : ℚ := COS (a + 0x40)

/-- SLOPE_LIMIT constant. -/
def SLOPE_LIMIT : Int := 11

/-- The index arithmetic of the SLOPE macro clamps its argument into
[-SLOPE_LIMIT, SLOPE_LIMIT]: y + (y < -L)*(-L - y) + (y > L)*(L - y). -/
def slope_clamp (v : Int) : Int :=
  if v < -SLOPE_LIMIT then -SLOPE_LIMIT else if v > SLOPE_LIMIT then SLOPE_LIMIT else v

/-- The 23x23 slope table, written below this definition in the source order. -/
def slp_table : Array (Array Int) := #[
  #[0xA0, 0xA2, 0xA4, 0xA6, 0xA9, 0xAC, 0xAF, 0xB2, 0xB5, 0xB9, 0xBC, 0xC0, 0xC4, 0xC7, 0xCB, 0xCE, 0xD1, 0xD4, 0xD7, 0xDA, 0xDC, 0xDE, 0xE0],
  #[0x9E, 0xA0, 0xA2, 0xA5, 0xA7, 0xAA, 0xAD, 0xB0, 0xB4, 0xB8, 0xBC, 0xC0, 0xC4, 0xC8, 0xCC, 0xD0, 0xD3, 0xD6, 0xD9, 0xDB, 0xDE, 0xE0, 0xE2],
  #[0x9C, 0x9E, 0xA0, 0xA2, 0xA5, 0xA8, 0xAB, 0xAF, 0xB3, 0xB7, 0xBB, 0xC0, 0xC5, 0xC9, 0xCD, 0xD1, 0xD5, 0xD8, 0xDB, 0xDE, 0xE0, 0xE2, 0xE4],
  #[0x9A, 0x9B, 0x9E, 0xA0, 0xA3, 0xA6, 0xA9, 0xAD, 0xB1, 0xB6, 0xBB, 0xC0, 0xC5, 0xCA, 0xCF, 0xD3, 0xD7, 0xDA, 0xDD, 0xE0, 0xE2, 0xE5, 0xE6],
  #[0x97, 0x99, 0x9B, 0x9D, 0xA0, 0xA3, 0xA7, 0xAB, 0xB0, 0xB5, 0xBA, 0xC0, 0xC6, 0xCB, 0xD0, 0xD5, 0xD9, 0xDD, 0xE0, 0xE3, 0xE5, 0xE7, 0xE9],
  #[0x94, 0x96, 0x98, 0x9A, 0x9D, 0xA0, 0xA4, 0xA8, 0xAD, 0xB3, 0xB9, 0xC0, 0xC7, 0xCD, 0xD3, 0xD8, 0xDC, 0xE0, 0xE3, 0xE6, 0xE8, 0xEA, 0xEC],
  #[0x91, 0x93, 0x95, 0x97, 0x99, 0x9C, 0xA0, 0xA5, 0xAA, 0xB0, 0xB8, 0xC0, 0xC8, 0xD0, 0xD6, 0xDB, 0xE0, 0xE4, 0xE7, 0xE9, 0xEB, 0xED, 0xEF],
  #[0x8E, 0x90, 0x91, 0x93, 0x95, 0x98, 0x9B, 0xA0, 0xA6, 0xAD, 0xB6, 0xC0, 0xCA, 0xD3, 0xDA, 0xE0, 0xE5, 0xE8, 0xEB, 0xED, 0xEF, 0xF0, 0xF2],
  #[0x8B, 0x8C, 0x8D, 0x8F, 0x90, 0x93, 0x96, 0x9A, 0xA0, 0xA8, 0xB3, 0xC0, 0xCD, 0xD8, 0xE0, 0xE6, 0xEA, 0xED, 0xF0, 0xF1, 0xF3, 0xF4, 0xF5],
  #[0x87, 0x88, 0x89, 0x8A, 0x8B, 0x8D, 0x90, 0x93, 0x98, 0xA0, 0xAD, 0xC0, 0xD3, 0xE0, 0xE8, 0xED, 0xF0, 0xF3, 0xF5, 0xF6, 0xF7, 0xF8, 0xF9],
  #[0x84, 0x84, 0x85, 0x85, 0x86, 0x87, 0x88, 0x8A, 0x8D, 0x93, 0xA0, 0xC0, 0xE0, 0xED, 0xF3, 0xF6, 0xF8, 0xF9, 0xFA, 0xFB, 0xFB, 0xFC, 0xFC],
  #[0x80, 0x80, 0x80, 0x80, 0x80, 0x80, 0x80, 0x80, 0x80, 0x80, 0x80, 0x00, 0x00, 0x00, 0x00, 0x00, 0x00, 0x00, 0x00, 0x00, 0x00, 0x00, 0x00],
  #[0x7C, 0x7C, 0x7B, 0x7B, 0x7A, 0x79, 0x78, 0x76, 0x73, 0x6D, 0x60, 0x40, 0x20, 0x13, 0x0D, 0x0A, 0x08, 0x07, 0x06, 0x05, 0x05, 0x04, 0x04],
  #[0x79, 0x78, 0x77, 0x76, 0x75, 0x73, 0x70, 0x6D, 0x68, 0x60, 0x53, 0x40, 0x2D, 0x20, 0x18, 0x13, 0x10, 0x0D, 0x0B, 0x0A, 0x09, 0x08, 0x07],
  #[0x75, 0x74, 0x73, 0x71, 0x70, 0x6D, 0x6A, 0x66, 0x60, 0x58, 0x4D, 0x40, 0x33, 0x28, 0x20, 0x1A, 0x16, 0x13, 0x10, 0x0F, 0x0D, 0x0C, 0x0B],
  #[0x72, 0x70, 0x6F, 0x6D, 0x6B, 0x68, 0x65, 0x60, 0x5A, 0x53, 0x4A, 0x40, 0x36, 0x2D, 0x26, 0x20, 0x1B, 0x18, 0x15, 0x13, 0x11, 0x10, 0x0E],
  #[0x6F, 0x6D, 0x6B, 0x69, 0x67, 0x64, 0x60, 0x5B, 0x56, 0x50, 0x48, 0x40, 0x38, 0x30, 0x2A, 0x25, 0x20, 0x1C, 0x19, 0x17, 0x15, 0x13, 0x11],
  #[0x6C, 0x6A, 0x68, 0x66, 0x63, 0x60, 0x5C, 0x58, 0x53, 0x4D, 0x47, 0x40, 0x39, 0x33, 0x2D, 0x28, 0x24, 0x20, 0x1D, 0x1A, 0x18, 0x16, 0x14],
  #[0x69, 0x67, 0x65, 0x63, 0x60, 0x5D, 0x59, 0x55, 0x50, 0x4B, 0x46, 0x40, 0x3A, 0x35, 0x30, 0x2B, 0x27, 0x23, 0x20, 0x1D, 0x1B, 0x19, 0x17],
  #[0x66, 0x65, 0x62, 0x60, 0x5D, 0x5A, 0x57, 0x53, 0x4F, 0x4A, 0x45, 0x40, 0x3B, 0x36, 0x31, 0x2D, 0x29, 0x26, 0x23, 0x20, 0x1E, 0x1B, 0x1A],
  #[0x64, 0x62, 0x60, 0x5E, 0x5B, 0x58, 0x55, 0x51, 0x4D, 0x49, 0x45, 0x40, 0x3B, 0x37, 0x33, 0x2F, 0x2B, 0x28, 0x25, 0x22, 0x20, 0x1E, 0x1C],
  #[0x62, 0x60, 0x5E, 0x5B, 0x59, 0x56, 0x53, 0x50, 0x4C, 0x48, 0x44, 0x40, 0x3C, 0x38, 0x34, 0x30, 0x2D, 0x2A, 0x27, 0x25, 0x22, 0x20, 0x1E],
  #[0x60, 0x5E, 0x5C, 0x5A, 0x57, 0x54, 0x51, 0x4E, 0x4B, 0x47, 0x44, 0x40, 0x3C, 0x39, 0x35, 0x32, 0x2F, 0x2C, 0x29, 0x26, 0x24, 0x22, 0x20]]

/-- SLOPE macro: slp_table[SLOPE_LIMIT + clamped y][SLOPE_LIMIT + clamped x]. -/
def SLOPE (y x : Int) : Int :=
  (slp_table.getD (SLOPE_LIMIT + slope_clamp y).toNat #[]).getD
    (SLOPE_LIMIT + slope_clamp x).toNat 0

/-- delta_angle: the minimum angle between alpha and beta (the C masks with & 0xFF,
which equals emod 256). -/
def delta_angle (alpha beta : Int) : Int :=
  let a := alpha.emod 256
  let b := beta.emod 256
  let diff := if a > b then a - b else b - a
  if diff > 0x80 then 0xFF - diff + 1 else diff

/-- The physics actor state (struct physicsactor_t). Sensors are immutable constants
(below) selected by pose, so they are not stored in the state; the input device is. -/
structure PhysicsActor where
  position : V2
  xsp : ℚ
  ysp : ℚ
  gsp : ℚ
  acc : ℚ
  dec : ℚ
  frc : ℚ
  capspeed : ℚ
  topspeed : ℚ
  topyspeed : ℚ
  air : ℚ
  airdrag : ℚ
  jmp : ℚ
  jmprel : ℚ
  diejmp : ℚ
  hitjmp : ℚ
  grv : ℚ
  slp : ℚ
  chrg : ℚ
  rollfrc : ℚ
  rolldec : ℚ
  rolluphillslp : ℚ
  rolldownhillslp : ℚ
  rollthreshold : ℚ
  unrollthreshold : ℚ
  walkthreshold : ℚ
  falloffthreshold : ℚ
  brakingthreshold : ℚ
  airdragthreshold : ℚ
  airdragxthreshold : ℚ
  chrgthreshold : ℚ
  waittime : ℚ
  angle : Int
  midair : Bool
  was_midair : Bool
  facing_right : Bool
  touching_ceiling : Bool
  inside_wall : Bool
  winning_pose : Bool
  hlock_timer : ℚ
  jump_lock_timer : ℚ
  wait_timer : ℚ
  midair_timer : ℚ
  breathe_timer : ℚ
  sticky_lock : Bool
  charge_intensity : ℚ
  airdrag_coefficient0 : ℚ
  airdrag_coefficient1 : ℚ
  state : PAS
  movmode : MM
  layer : Nat
  input : InputState
  angle_sensor0 : V2
  angle_sensor1 : V2
  reference_time : ℚ
  fixed_time : ℚ

/-- Sensor constants, as created by physicsactor_create. -/
def A_normal : Sensor := sensor_create_vertical (-9) 0 20

def B_normal : Sensor := sensor_create_vertical 9 0 20

def C_normal : Sensor := sensor_create_vertical (-9) (-24) 0

def D_normal : Sensor := sensor_create_vertical 9 (-24) 0

def M_normal : Sensor := sensor_create_horizontal 4 (-10) 0

def N_normal : Sensor := sensor_create_horizontal 4 0 10

def U_normal : Sensor := sensor_create_horizontal (-4) 0 0

def A_intheair : Sensor := sensor_create_vertical (-9) 0 20

def B_intheair : Sensor := sensor_create_vertical 9 0 20

def C_intheair : Sensor := sensor_create_vertical (-9) (-24) 0

def D_intheair : Sensor := sensor_create_vertical 9 (-24) 0

def M_intheair : Sensor := sensor_create_horizontal 0 (-11) 0

def N_intheair : Sensor := sensor_create_horizontal 0 0 11

def U_intheair : Sensor := sensor_create_horizontal (-4) 0 0

def A_jumproll : Sensor := sensor_create_vertical (-5) 0 19

def B_jumproll : Sensor := sensor_create_vertical 5 0 19

def C_jumproll : Sensor := sensor_create_vertical (-5) (-10) 0

def D_jumproll : Sensor := sensor_create_vertical 5 (-10) 0

def M_jumproll : Sensor := sensor_create_horizontal 0 (-11) 0

def N_jumproll : Sensor := sensor_create_horizontal 0 0 11

def U_jumproll : Sensor := sensor_create_horizontal (-4) 0 0

/-- Pose selection shared by the GENERATE_SENSOR_GETTER getters: jump-roll pose for
Jumping/Rolling, airborne pose when midair or Springing, normal pose otherwise. -/
def pick_sensor (pa : PhysicsActor) (normal intheair jumproll : Sensor) : Sensor :=
  if pa.state = PAS.jumping ∨ pa.state = PAS.rolling then jumproll
  else if pa.midair ∨ pa.state = PAS.springing then intheair
  else normal

/-- sensor_A getter. -/
def sensor_A (pa : PhysicsActor) : Sensor := pick_sensor pa A_normal A_intheair A_jumproll

/-- sensor_B getter. -/
def sensor_B (pa : PhysicsActor) : Sensor := pick_sensor pa B_normal B_intheair B_jumproll

/-- sensor_C getter. -/
def sensor_C (pa : PhysicsActor) : Sensor := pick_sensor pa C_normal C_intheair C_jumproll

/-- sensor_D getter. -/
def sensor_D (pa : PhysicsActor) : Sensor := pick_sensor pa D_normal D_intheair D_jumproll

/-- sensor_M getter. -/
def sensor_M (pa : PhysicsActor) : Sensor := pick_sensor pa M_normal M_intheair M_jumproll

/-- sensor_N getter. -/
def sensor_N (pa : PhysicsActor) : Sensor := pick_sensor pa N_normal N_intheair N_jumproll

/-- sensor_U getter. -/
def sensor_U (pa : PhysicsActor) : Sensor := pick_sensor pa U_normal U_intheair U_jumproll

/-- Modelled from the spec: coordinate rotation by movement mode (spec section 6.2):
Floor is the identity, RightWall maps (x, y) to (-y, x), Ceiling to (-x, -y),
LeftWall to (y, -x). -/
def mm_rotate (mm : MM) (p : Point) : Point :=
  match mm with
  | MM.floor => p
  | MM.rightwall => ⟨-p.y, p.x⟩
  | MM.ceiling => ⟨-p.x, -p.y⟩
  | MM.leftwall => ⟨p.y, -p.x⟩

/-- Modelled from the spec: head of a sensor in world space (sensor.c is not in src;
spec section 6.2): the (x1, y1) endpoint rotated by the movement mode, offset by the
truncated actor position. -/
def sensor_head (s : Sensor) (position : V2) (mm : MM) : Point :=
  let r := mm_rotate mm ⟨s.x1, s.y1⟩
  ⟨ctrunc position.x + r.x, ctrunc position.y + r.y⟩

/-- Modelled from the spec: tail of a sensor in world space: the (x2, y2) endpoint
rotated by the movement mode, offset by the truncated actor position. -/
def sensor_tail (s : Sensor) (position : V2) (mm : MM) : Point :=
  let r := mm_rotate mm ⟨s.x2, s.y2⟩
  ⟨ctrunc position.x + r.x, ctrunc position.y + r.y⟩

/-- Modelled from the spec: sensor_check (sensor.c is not in src; spec section 6.2):
rotates the segment into world space and queries best_obstacle_at; a disabled sensor
detects nothing. The C stores the enabled flag on the sensor; update_sensors always
sets it right before reading, so it is passed explicitly here. -/
def sensor_check (s : Sensor) (enabled : Bool) (position : V2) (mm : MM) (layer : Nat)
    (map : ObstacleMap) : Option Obstacle :=
  if enabled then
    let h := sensor_head s position mm
    let t := sensor_tail s position mm
    map.best_obstacle_at h.x h.y t.x t.y mm layer
  else none

/-- The six sensor readings at_A .. at_N of one call to update_sensors. -/
structure Readout where
  at_A : Option Obstacle
  at_B : Option Obstacle
  at_C : Option Obstacle
  at_D : Option Obstacle
  at_M : Option Obstacle
  at_N : Option Obstacle

/-- Keep a reading only when it is a solid obstacle (the cloud-ignoring filter). -/
def solid_only (o : Option Obstacle) : Option Obstacle :=
  match o with
  | some g => if g.solid then some g else none
  | none => none

/-- The special A/B logic when both readings are distinct clouds (update_sensors,
lines 1878-1892): in Floor mode, when the down-facing ground positions at the two
sensor tails differ by more than 8, the reading with the smaller ground position is
dropped. -/
def filter_cloud_pair (pa : PhysicsActor) (a b : Sensor) (at_A at_B : Option Obstacle) :
    Option Obstacle × Option Obstacle :=
  match at_A, at_B with
  | some oa, some ob =>
    if oa.id ≠ ob.id ∧ ¬oa.solid ∧ ¬ob.solid then
      if pa.movmode = MM.floor then
        let tail_a := sensor_tail a pa.position pa.movmode
        let tail_b := sensor_tail b pa.position pa.movmode
        let gnd_a := oa.ground_position tail_a.x tail_a.y GD.down
        let gnd_b := ob.ground_position tail_b.x tail_b.y GD.down
        if |gnd_a - gnd_b| > 8 then
          if gnd_a < gnd_b then (none, some ob) else (some oa, none)
        else (some oa, some ob)
      else (some oa, some ob)
    else (some oa, some ob)
  | x, y => (x, y)

/-- update_sensors: enables the sensors by situation, reads them, applies the cloud
filters, and sets the midair / touching_ceiling flags. -/
def update_sensors (map : ObstacleMap) (pa : PhysicsActor) : PhysicsActor × Readout :=
  let a := sensor_A pa
  let b := sensor_B pa
  let c := sensor_C pa
  let d := sensor_D pa
  let m := sensor_M pa
  let n := sensor_N pa
  let ea := if ¬pa.midair then true else decide (pa.ysp ≥ 0)
  let eb := if ¬pa.midair then true else decide (pa.ysp ≥ 0)
  let ec := if ¬pa.midair then false else decide (pa.ysp < 0)
  let ed := if ¬pa.midair then false else decide (pa.ysp < 0)
  let em := if ¬pa.midair then decide (pa.gsp < 0) else decide (pa.xsp < 0)
  let en := if ¬pa.midair then decide (pa.gsp > 0) else decide (pa.xsp > 0)
  let at_A := sensor_check a ea pa.position pa.movmode pa.layer map
  let at_B := sensor_check b eb pa.position pa.movmode pa.layer map
  let at_C := sensor_check c ec pa.position pa.movmode pa.layer map
  let at_D := sensor_check d ed pa.position pa.movmode pa.layer map
  let at_M := sensor_check m em pa.position pa.movmode pa.layer map
  let at_N := sensor_check n en pa.position pa.movmode pa.layer map
  let at_C := solid_only at_C
  let at_D := solid_only at_D
  let at_M := solid_only at_M
  let at_N := solid_only at_N
  let at_A := if pa.ysp < 0 ∧ -pa.ysp > |pa.xsp| then solid_only at_A else at_A
  let at_B := if pa.ysp < 0 ∧ -pa.ysp > |pa.xsp| then solid_only at_B else at_B
  let at_A :=
    match at_A with
    | some o =>
      if ¬o.solid then
        let tail := sensor_tail a pa.position pa.movmode
        if ¬o.point_collision tail.x tail.y then none
        else if pa.midair ∧ pa.movmode = MM.floor ∧ pa.angle = 0 then
          let ygnd := o.ground_position tail.x tail.y GD.down
          if tail.y < ygnd + CLOUD_OFFSET then some o else none
        else some o
      else some o
    | none => none
  let at_B :=
    match at_B with
    | some o =>
      if ¬o.solid then
        let tail := sensor_tail b pa.position pa.movmode
        if ¬o.point_collision tail.x tail.y then none
        else if pa.midair ∧ pa.movmode = MM.floor ∧ pa.angle = 0 then
          let ygnd := o.ground_position tail.x tail.y GD.down
          if tail.y < ygnd + CLOUD_OFFSET then some o else none
        else some o
      else some o
    | none => none
  let ab := filter_cloud_pair pa a b at_A at_B
  let at_A := ab.1
  let at_B := ab.2
  (⟨{ pa with midair := at_A.isNone ∧ at_B.isNone,
              touching_ceiling := at_C.isSome ∨ at_D.isSome },
    at_A, at_B, at_C, at_D, at_M, at_N⟩ : PhysicsActor × Readout)

/-- update_movmode: derives the movement mode from the angle; the boundary angles
0x20, 0x60, 0xA0, 0xE0 change nothing, and entering the Floor band from Ceiling mode
negates the ground speed. -/
def update_movmode (pa : PhysicsActor) : PhysicsActor :=
  if pa.angle < 0x20 ∨ pa.angle > 0xE0 then
    let pa := if pa.movmode = MM.ceiling then { pa with gsp := -pa.gsp } else pa
    { pa with movmode := MM.floor }
  else if 0x20 < pa.angle ∧ pa.angle < 0x60 then { pa with movmode := MM.leftwall }
  else if 0x60 < pa.angle ∧ pa.angle < 0xA0 then { pa with movmode := MM.ceiling }
  else if 0xA0 < pa.angle ∧ pa.angle < 0xE0 then { pa with movmode := MM.rightwall }
  else pa

/-- pick_the_best_ground: which one is the tallest obstacle, a or b?
Returns true for 'a' and false for 'b'. -/
def pick_the_best_ground (pa : PhysicsActor) (a b : Option Obstacle)
    (a_sensor b_sensor : Sensor) : Bool :=
  match a, b with
  | none, _ => false
  | some _, none => true
  | some ga, some gb =>
    match pa.movmode with
    | MM.floor =>
      let xa := ctrunc pa.position.x + a_sensor.x2
      let ya := ctrunc pa.position.y + a_sensor.y2
      let xb := ctrunc pa.position.x + b_sensor.x2
      let yb := ctrunc pa.position.y + b_sensor.y2
      let ha := ga.ground_position xa ya GD.down
      let hb := gb.ground_position xb yb GD.down
      decide (ha < hb)
    | MM.leftwall =>
      let xa := ctrunc pa.position.x - a_sensor.y2
      let ya := ctrunc pa.position.y + a_sensor.x2
      let xb := ctrunc pa.position.x - b_sensor.y2
      let yb := ctrunc pa.position.y + b_sensor.x2
      let ha := ga.ground_position xa ya GD.left
      let hb := gb.ground_position xb yb GD.left
      decide (ha ≥ hb)
    | MM.ceiling =>
      let xa := ctrunc pa.position.x - a_sensor.x2
      let ya := ctrunc pa.position.y - a_sensor.y2
      let xb := ctrunc pa.position.x - b_sensor.x2
      let yb := ctrunc pa.position.y - b_sensor.y2
      let ha := ga.ground_position xa ya GD.up
      let hb := gb.ground_position xb yb GD.up
      decide (ha ≥ hb)
    | MM.rightwall =>
      let xa := ctrunc pa.position.x + a_sensor.y2
      let ya := ctrunc pa.position.y - a_sensor.x2
      let xb := ctrunc pa.position.x + b_sensor.y2
      let yb := ctrunc pa.position.y - b_sensor.x2
      let ha := ga.ground_position xa ya GD.right
      let hb := gb.ground_position xb yb GD.right
      decide (ha < hb)

/-- pick_the_best_ceiling: which one is the best ceiling, c or d?
Returns true for 'c' and false for 'd'. -/
def pick_the_best_ceiling (pa : PhysicsActor) (c d : Option Obstacle)
    (c_sensor d_sensor : Sensor) : Bool :=
  match c, d with
  | none, _ => false
  | some _, none => true
  | some gc, some gd =>
    match pa.movmode with
    | MM.floor =>
      let xc := ctrunc pa.position.x + c_sensor.x1
      let yc := ctrunc pa.position.y + c_sensor.y1
      let xd := ctrunc pa.position.x + d_sensor.x1
      let yd := ctrunc pa.position.y + d_sensor.y1
      let hc := gc.ground_position xc yc GD.up
      let hd := gd.ground_position xd yd GD.up
      decide (hc ≥ hd)
    | MM.leftwall =>
      let xc := ctrunc pa.position.x - c_sensor.y1
      let yc := ctrunc pa.position.y + c_sensor.x1
      let xd := ctrunc pa.position.x - d_sensor.y1
      let yd := ctrunc pa.position.y + d_sensor.x1
      let hc := gc.ground_position xc yc GD.right
      let hd := gd.ground_position xd yd GD.right
      decide (hc < hd)
    | MM.ceiling =>
      let xc := ctrunc pa.position.x - c_sensor.x1
      let yc := ctrunc pa.position.y - c_sensor.y1
      let xd := ctrunc pa.position.x - d_sensor.x1
      let yd := ctrunc pa.position.y - d_sensor.y1
      let hc := gc.ground_position xc yc GD.down
      let hd := gd.ground_position xd yd GD.down
      decide (hc < hd)
    | MM.rightwall =>
      let xc := ctrunc pa.position.x + c_sensor.y1
      let yc := ctrunc pa.position.y - c_sensor.x1
      let xd := ctrunc pa.position.x + d_sensor.y1
      let yd := ctrunc pa.position.y - d_sensor.x1
      let hc := gc.ground_position xc yc GD.left
      let hd := gd.ground_position xd yd GD.left
      decide (hc ≥ hd)

/-- distance_between_angle_sensors: always uses A_normal to stay consistent. -/
def distance_between_angle_sensors (_pa : PhysicsActor) : Int := 1 - A_normal.x1

/-- One probe-point acceptance test of UPDATE_ANGLE_STEP: the point accepts an
obstacle when it is solid, or when the probe still sits within CLOUD_OFFSET of the
cloud's ground edge in the direction of the current mode. -/
def angle_probe_hit (map : ObstacleMap) (pa : PhysicsActor) (px py : Int) : Bool :=
  match map.best_obstacle_at px py px py pa.movmode pa.layer with
  | none => false
  | some gnd =>
    decide (gnd.solid = true ∨
      (pa.movmode = MM.floor ∧ py < gnd.ground_position px py GD.down + CLOUD_OFFSET) ∨
      (pa.movmode = MM.ceiling ∧ py > gnd.ground_position px py GD.up - CLOUD_OFFSET) ∨
      (pa.movmode = MM.leftwall ∧ px > gnd.ground_position px py GD.left - CLOUD_OFFSET) ∨
      (pa.movmode = MM.rightwall ∧ px < gnd.ground_position px py GD.right + CLOUD_OFFSET))

/-- The search loop of UPDATE_ANGLE_STEP: walks downward in local "down" from the
sensor tail looking for ground under the two laterally offset probe points; each
point freezes its coordinates when it first accepts an obstacle. -/
def update_angle_probe_loop (map : ObstacleMap) (pa : PhysicsActor) (hoff : Int) :
    Nat → Int → Option Point → Option Point → Option Point × Option Point
  | 0, _, fa, fb => (fa, fb)
  | Nat.succ fuel, i, fa, fb =>
    if fa.isSome ∧ fb.isSome then (fa, fb)
    else
      let h : ℚ := (i : ℚ)
      let x : Int := ctrunc (pa.position.x + h * SIN pa.angle + 1 / 2)
      let y : Int := ctrunc (pa.position.y + h * COS pa.angle + 1 / 2)
      let fa :=
        match fa with
        | some p => some p
        | none =>
          let xa : Int := ctrunc ((x : ℚ) - (hoff : ℚ) * COS pa.angle)
          let ya : Int := ctrunc ((y : ℚ) + (hoff : ℚ) * SIN pa.angle)
          if angle_probe_hit map pa xa ya then some ⟨xa, ya⟩ else none
      let fb :=
        match fb with
        | some p => some p
        | none =>
          let xb : Int := ctrunc ((x : ℚ) + (hoff : ℚ) * COS pa.angle)
          let yb : Int := ctrunc ((y : ℚ) - (hoff : ℚ) * SIN pa.angle)
          if angle_probe_hit map pa xb yb then some ⟨xb, yb⟩ else none
      update_angle_probe_loop map pa hoff fuel (i + 1) fa fb

/-- Result of one UPDATE_ANGLE_STEP: the updated actor and the accepted local
displacement (out_dx, out_dy). -/
structure AngleStep where
  pa : PhysicsActor
  dx : Int
  dy : Int

/-- UPDATE_ANGLE_STEP: probe two ground points, project them onto the obstacle
surfaces per movement mode, and map the displacement through the slope table; the new
angle is rejected when the two obstacles differ and it jumps by more than 0x25. -/
def update_angle_step (map : ObstacleMap) (pa : PhysicsActor)
    (hoff search_base max_iterations : Int) : AngleStep :=
  let fab := update_angle_probe_loop map pa hoff max_iterations.toNat search_base none none
  let pa0 := { pa with angle_sensor0 := pa.position, angle_sensor1 := pa.position }
  match fab.1, fab.2 with
  | some pA, some pB =>
    let ga := map.best_obstacle_at pA.x pA.y pA.x pA.y pa.movmode pa.layer
    let gb := map.best_obstacle_at pB.x pB.y pB.x pB.y pa.movmode pa.layer
    match ga, gb with
    | some oa, some ob =>
      let q : Int × Int × Int × Int :=
        match pa.movmode with
        | MM.floor =>
          (pA.x, oa.ground_position pA.x pA.y GD.down,
           pB.x, ob.ground_position pB.x pB.y GD.down)
        | MM.leftwall =>
          (oa.ground_position pA.x pA.y GD.left, pA.y,
           ob.ground_position pB.x pB.y GD.left, pB.y)
        | MM.ceiling =>
          (pA.x, oa.ground_position pA.x pA.y GD.up,
           pB.x, ob.ground_position pB.x pB.y GD.up)
        | MM.rightwall =>
          (oa.ground_position pA.x pA.y GD.right, pA.y,
           ob.ground_position pB.x pB.y GD.right, pB.y)
    
      let xa := q.1
      let ya := q.2.1
      let xb := q.2.2.1
      let yb := q.2.2.2
      let x := xb - xa
      let y := yb - ya
      if x ≠ 0 ∨ y ≠ 0 then
        let ang := SLOPE y x
        if oa.id = ob.id ∨ delta_angle ang pa.angle ≤ 0x25 then
          { pa := { pa0 with angle := ang,
                             angle_sensor0 := ⟨(xa : ℚ), (ya : ℚ)⟩,
                             angle_sensor1 := ⟨(xb : ℚ), (yb : ℚ)⟩ },
            dx := x, dy := y }
        else { pa := pa0, dx := 0, dy := 0 }
      else { pa := pa0, dx := 0, dy := 0 }
    | _, _ => { pa := pa0, dx := 0, dy := 0 }
  | _, _ => { pa := pa0, dx := 0, dy := 0 }

/-- The do-while loop of UPDATE_ANGLE: retry with smaller hoff (step -2) while the
result is unstable (large displacement or angular jump) and the M/N sensors are free. -/
def update_angle_loop (map : ObstacleMap) (r : Readout)
    (search_base max_iterations min_hoff max_delta current_angle tolerance : Int) :
    Nat → Int → PhysicsActor → PhysicsActor
  | 0, _, pa => pa
  | Nat.succ fuel, hoff, pa =>
    let pa := { pa with angle := current_angle }
    let st := update_angle_step map pa hoff search_base max_iterations
    let hoff2 := hoff - 2
    if hoff2 ≥ min_hoff ∧ r.at_M.isNone ∧ r.at_N.isNone ∧
        (st.dx < -max_delta ∨ st.dx > max_delta ∨ st.dy < -max_delta ∨ st.dy > max_delta ∨
         delta_angle st.pa.angle current_angle > tolerance) then
      update_angle_loop map r search_base max_iterations min_hoff max_delta current_angle
        tolerance fuel hoff2 st.pa
    else st.pa

/-- UPDATE_ANGLE: compute the current angle from a two-point ground probe. -/
def update_angle (map : ObstacleMap) (r : Readout) (pa : PhysicsActor) : PhysicsActor :=
  let s := sensor_A pa
  let sensor_height := s.y2 - s.y1
  let search_base := s.y2 - 1
  let max_iterations := sensor_height * 3
  let half_dist := Int.tdiv (distance_between_angle_sensors pa) 2
  let hoff := half_dist + (1 - half_dist.emod 2)
  let min_hoff : Int := if pa.was_midair then 3 else 1
  let max_delta := min (hoff * 2) SLOPE_LIMIT
  update_angle_loop map r search_base max_iterations min_hoff max_delta pa.angle 0x14
    (hoff.toNat + 1) hoff pa

/-- FORCE_ANGLE: force the angle to a value, then update movmode and sensors. -/
def force_angle (map : ObstacleMap) (pa : PhysicsActor) (new_angle : Int) :
    PhysicsActor × Readout :=
  update_sensors map (update_movmode { pa with angle := new_angle })

/-- SET_AUTO_ANGLE: recompute the angle, then update movmode and sensors. -/
def set_auto_angle (map : ObstacleMap) (par : PhysicsActor × Readout) :
    PhysicsActor × Readout :=
  update_sensors map (update_movmode (update_angle map par.2 par.1))

/-- WALKING_OR_RUNNING utility macro. -/
def walking_or_running (pa : PhysicsActor) : PAS :=
  if |pa.gsp| ≥ pa.topspeed then PAS.running else PAS.walking

/-- The getting-hit section of run_simulation: input ignored, facing set opposite
to the horizontal speed. -/
def step_gettinghit (pa : PhysicsActor) : PhysicsActor :=
  if pa.state = PAS.gettinghit then
    let pa := { pa with input := input_reset pa.input }
    if ¬nearly_zero pa.xsp then { pa with facing_right := pa.xsp < 0 } else pa
  else pa

/-- The waiting section of run_simulation: Stopped becomes Waiting after waittime. -/
def step_waiting (dt : ℚ) (pa : PhysicsActor) : PhysicsActor :=
  if pa.state = PAS.stopped then
    let pa := { pa with wait_timer := pa.wait_timer + dt }
    if pa.wait_timer ≥ pa.waittime then { pa with state := PAS.waiting } else pa
  else { pa with wait_timer := 0 }

/-- First half of the winning section body: reset the input, clamp the ground speed
to 0.67 of capspeed, and turn Rolling into Braking. -/
def winning_slow (pa : PhysicsActor) : PhysicsActor :=
  let pa := { pa with input := input_reset pa.input }
  let pa := { pa with gsp := clip pa.gsp (-0.67 * pa.capspeed) (0.67 * pa.capspeed) }
  if pa.state = PAS.rolling then { pa with state := PAS.braking } else pa

/-- Second half of the winning section body: steer against the motion (the threshold
local constant of the source is 60) and enter the winning state when grounded and
slow enough. -/
def winning_enter (pa : PhysicsActor) : PhysicsActor :=
  let pa :=
    if pa.gsp > 60 then { pa with input := input_simulate_left_down pa.input }
    else if pa.gsp < -60 then { pa with input := input_simulate_right_down pa.input }
    else { pa with input := input_disable pa.input }
  if ¬pa.midair ∧ |pa.gsp| < pa.walkthreshold then { pa with state := PAS.winning } else pa

/-- The body of the winning section (brake on level clear). -/
def winning_brake (pa : PhysicsActor) : PhysicsActor :=
  winning_enter (winning_slow pa)

/-- The winning section of run_simulation: brake on level clear. -/
def step_winning (pa : PhysicsActor) : PhysicsActor :=
  if pa.winning_pose then winning_brake pa else pa

/-- The horizontal-control-lock section of run_simulation. -/
def step_hlock (dt : ℚ) (pa : PhysicsActor) : PhysicsActor :=
  if pa.hlock_timer > 0 then
    let t := pa.hlock_timer - dt
    let pa := { pa with hlock_timer := if t < 0 then 0 else t }
    let pa := { pa with input := input_simulate_right_up (input_simulate_left_up pa.input) }
    if ¬pa.midair ∧ ¬nearly_zero pa.gsp then { pa with facing_right := pa.gsp > 0 }
    else if pa.midair ∧ ¬nearly_zero pa.xsp then { pa with facing_right := pa.xsp > 0 }
    else pa
  else pa

/-- The facing-left-or-right section of run_simulation. -/
def step_facing (pa : PhysicsActor) : PhysicsActor :=
  if pa.state ≠ PAS.rolling ∧ (¬nearly_zero pa.gsp ∨ ¬nearly_zero pa.xsp) then
    if (pa.gsp > 0 ∨ pa.midair) ∧ pa.input.right_down then { pa with facing_right := true }
    else if (pa.gsp < 0 ∨ pa.midair) ∧ pa.input.left_down then { pa with facing_right := false }
    else pa
  else pa

/-- The walking-and-running section of run_simulation: slope factor, acceleration,
deceleration, braking or friction, and the grounded animation fixups. -/
def step_walk_run (dt : ℚ) (pa : PhysicsActor) : PhysicsActor :=
  if ¬pa.midair ∧ pa.state ≠ PAS.rolling ∧ pa.state ≠ PAS.charging then
    let pa :=
      if |pa.gsp| ≥ pa.walkthreshold ∨ |SIN pa.angle| ≥ 0.707 then
        { pa with gsp := pa.gsp + pa.slp * (-SIN pa.angle) * dt }
      else pa
    let pa :=
      if pa.input.right_down ∧ ¬pa.input.left_down ∧ pa.gsp ≥ 0 then
        if pa.gsp < pa.topspeed then
          let g := pa.gsp + pa.acc * dt
          if g ≥ pa.topspeed then { pa with gsp := pa.topspeed, state := PAS.running }
          else if ¬(pa.state = PAS.pushing ∧ pa.facing_right) then
            { pa with gsp := g, state := PAS.walking }
          else { pa with gsp := g }
        else pa
      else if pa.input.left_down ∧ ¬pa.input.right_down ∧ pa.gsp ≤ 0 then
        if pa.gsp > -pa.topspeed then
          let g := pa.gsp - pa.acc * dt
          if g ≤ -pa.topspeed then { pa with gsp := -pa.topspeed, state := PAS.running }
          else if ¬(pa.state = PAS.pushing ∧ ¬pa.facing_right) then
            { pa with gsp := g, state := PAS.walking }
          else { pa with gsp := g }
        else pa
      else pa
    let pa :=
      if pa.input.right_down ∧ pa.gsp < 0 then
        let g := pa.gsp + pa.dec * dt
        if g ≥ 0 then { pa with gsp := 0, state := PAS.stopped }
        else if |g| ≥ pa.brakingthreshold ∧ pa.movmode = MM.floor then
          { pa with gsp := g, state := PAS.braking }
        else { pa with gsp := g }
      else if pa.input.left_down ∧ pa.gsp > 0 then
        let g := pa.gsp - pa.dec * dt
        if g ≤ 0 then { pa with gsp := 0, state := PAS.stopped }
        else if |g| ≥ pa.brakingthreshold ∧ pa.movmode = MM.floor then
          { pa with gsp := g, state := PAS.braking }
        else { pa with gsp := g }
      else pa
    let pa :=
      if pa.state = PAS.braking then
        let brk := pa.frc * (1.5 + 3 * |SIN pa.angle|)
        if |pa.gsp| ≤ brk * dt then { pa with gsp := 0, state := PAS.stopped }
        else { pa with gsp := pa.gsp - brk * sign pa.gsp * dt }
      else
        if ¬pa.input.left_down ∧ ¬pa.input.right_down then
          if |pa.gsp| ≤ pa.frc * dt then { pa with gsp := 0, state := PAS.stopped }
          else { pa with gsp := pa.gsp - pa.frc * sign pa.gsp * dt }
        else pa
    if |pa.gsp| < pa.walkthreshold then
      if pa.state = PAS.pushing ∧ ¬pa.input.left_down ∧ ¬pa.input.right_down then
        { pa with state := PAS.stopped }
      else if pa.state = PAS.pushing ∨ pa.state = PAS.lookingup ∨ pa.state = PAS.ducking then
        pa
      else if pa.input.left_down ∨ pa.input.right_down then
        { pa with state :=
            if pa.input.left_down ∧ pa.input.right_down then PAS.stopped else PAS.walking }
      else if pa.state ≠ PAS.waiting then { pa with state := PAS.stopped }
      else if (pa.state = PAS.stopped ∨ pa.state = PAS.waiting) ∧ ¬nearly_zero pa.gsp then
        { pa with state := PAS.walking }
      else pa
    else
      if pa.state = PAS.stopped ∨ pa.state = PAS.waiting ∨ pa.state = PAS.ledge ∨
         pa.state = PAS.walking ∨ pa.state = PAS.running ∨ pa.state = PAS.ducking ∨
         pa.state = PAS.lookingup then
        { pa with state := walking_or_running pa }
      else if pa.state = PAS.pushing then { pa with state := PAS.walking }
      else pa
  else pa

/-- The looking-up-and-crouching section of run_simulation. -/
def step_duck_look (pa : PhysicsActor) : PhysicsActor :=
  if ¬pa.midair ∧ pa.state ≠ PAS.pushing ∧ pa.state ≠ PAS.rolling ∧
     pa.state ≠ PAS.charging ∧ nearly_zero pa.gsp then
    if pa.input.down_down then { pa with state := PAS.ducking }
    else if pa.input.up_down then { pa with state := PAS.lookingup }
    else pa
  else pa

/-- The springing section of run_simulation. -/
def step_springing (pa : PhysicsActor) : PhysicsActor :=
  if pa.state = PAS.springing ∧ pa.midair ∧ pa.ysp > 0 then
    { pa with state := PAS.walking }
  else pa

/-- The breathing section of run_simulation. -/
def step_breathing (dt : ℚ) (pa : PhysicsActor) : PhysicsActor :=
  if pa.breathe_timer > 0 then
    { pa with breathe_timer := pa.breathe_timer - dt, state := PAS.breathing }
  else if pa.state = PAS.breathing ∧ pa.midair then
    { pa with breathe_timer := 0, state := PAS.walking }
  else pa

/-- The ledge-balancing section of run_simulation. -/
def step_ledge (map : ObstacleMap) (r : Readout) (pa : PhysicsActor) : PhysicsActor :=
  if ¬pa.midair ∧ pa.movmode = MM.floor ∧ nearly_zero pa.gsp ∧
     ¬(pa.state = PAS.ledge ∨ pa.state = PAS.pushing) then
    let s := if r.at_A.isSome then sensor_A pa else sensor_B pa
    let x := ctrunc pa.position.x
    let y := ctrunc pa.position.y + s.y2 + 8
    if r.at_A.isSome ∧ r.at_B.isNone ∧
       (map.best_obstacle_at x y x y pa.movmode pa.layer).isNone then
      { pa with state := PAS.ledge, facing_right := true }
    else if r.at_A.isNone ∧ r.at_B.isSome ∧
       (map.best_obstacle_at x y x y pa.movmode pa.layer).isNone then
      { pa with state := PAS.ledge, facing_right := false }
    else pa
  else pa

/-- The body of the roll branch of the rolling section: slope factor, deceleration,
friction, unroll, facing. -/
def roll_dynamics (dt : ℚ) (pa : PhysicsActor) : PhysicsActor :=
  let pa :=
    if pa.gsp * SIN pa.angle ≥ 0 then
      { pa with gsp := pa.gsp + pa.rolluphillslp * (-SIN pa.angle) * dt }
    else
      { pa with gsp := pa.gsp + pa.rolldownhillslp * (-SIN pa.angle) * dt }
  let pa :=
    if pa.input.right_down ∧ pa.gsp < 0 then
      { pa with gsp := qmin 0 (pa.gsp + pa.rolldec * dt) }
    else if pa.input.left_down ∧ pa.gsp > 0 then
      { pa with gsp := qmax 0 (pa.gsp - pa.rolldec * dt) }
    else pa
  let pa :=
    if |pa.gsp| > pa.rollfrc * dt then
      { pa with gsp := pa.gsp - pa.rollfrc * sign pa.gsp * dt }
    else { pa with gsp := 0 }
  let pa := if |pa.gsp| < pa.unrollthreshold then { pa with state := PAS.stopped } else pa
  if ¬nearly_zero pa.gsp then { pa with facing_right := pa.gsp > 0 } else pa

/-- The rolling section of run_simulation: start rolling, roll dynamics, unroll. -/
def step_rolling (dt : ℚ) (pa : PhysicsActor) : PhysicsActor :=
  let pa :=
    if ¬pa.midair ∧ (pa.state = PAS.walking ∨ pa.state = PAS.running) then
      if |pa.gsp| ≥ pa.rollthreshold ∧ pa.input.down_down then
        { pa with state := PAS.rolling }
      else pa
    else pa
  if ¬pa.midair ∧ pa.state = PAS.rolling then roll_dynamics dt pa else pa

/-- The charge-intensity update while charging: FIRE1 pressed charges more (capped
at 1); otherwise an intensity at or above chrgthreshold is attenuated. -/
def charge_intensity_update (dt : ℚ) (pa : PhysicsActor) : PhysicsActor :=
  if pa.input.fire1_pressed then
    { pa with charge_intensity := qmin 1 (pa.charge_intensity + 0.25) }
  else if |pa.charge_intensity| ≥ pa.chrgthreshold then
    { pa with charge_intensity := pa.charge_intensity * (0.999506551 - 1.84539309 * dt) }
  else pa

/-- The charge-and-release section of run_simulation (begin to charge from Ducking;
update the charge intensity; release into Rolling when DOWN is no longer held). -/
def step_charge (dt : ℚ) (pa : PhysicsActor) : PhysicsActor :=
  let pa :=
    if pa.state = PAS.ducking then
      if pa.input.down_down ∧ pa.input.fire1_pressed ∧ ¬nearly_zero pa.chrg then
        { pa with state := PAS.charging }
      else pa
    else pa
  if pa.state = PAS.charging then
    let pa := charge_intensity_update dt pa
    if ¬pa.input.down_down then
      let s : ℚ := if pa.facing_right then 1 else -1
      { pa with gsp := (s * pa.chrg) * (0.67 + pa.charge_intensity * 0.33),
                state := PAS.rolling,
                charge_intensity := 0,
                jump_lock_timer := 0.09375 }
    else { pa with gsp := 0 }
  else pa

/-- The ground-speed section of run_simulation: cap the ground speed and project it
onto the world axes while grounded. -/
def step_ground_speed (pa : PhysicsActor) : PhysicsActor :=
  if ¬pa.midair then
    let g := clip pa.gsp (-pa.capspeed) pa.capspeed
    { pa with gsp := g, xsp := g * COS pa.angle, ysp := g * (-SIN pa.angle) }
  else pa

/-- The falling-off (air physics) section of run_simulation: air acceleration, air
drag via the precomputed coefficients, and gravity capped at topyspeed. -/
def step_air (dt : ℚ) (pa : PhysicsActor) : PhysicsActor :=
  if pa.midair then
    let pa :=
      if pa.input.right_down ∧ ¬pa.input.left_down then
        if pa.xsp < pa.topspeed then
          { pa with xsp := qmin (pa.xsp + pa.air * dt) pa.topspeed }
        else pa
      else pa
    let pa :=
      if pa.input.left_down ∧ ¬pa.input.right_down then
        if pa.xsp > -pa.topspeed then
          { pa with xsp := qmax (pa.xsp - pa.air * dt) (-pa.topspeed) }
        else pa
      else pa
    let pa :=
      if pa.state ≠ PAS.gettinghit ∧ pa.ysp < 0 ∧ pa.ysp > pa.airdragthreshold ∧
         |pa.xsp| ≥ pa.airdragxthreshold then
        { pa with xsp := pa.xsp * (pa.airdrag_coefficient0 * dt + pa.airdrag_coefficient1) }
      else pa
    let grv := if pa.state ≠ PAS.gettinghit then pa.grv else pa.grv / 7 * 6
    let y := pa.ysp + grv * dt
    { pa with ysp := if y > pa.topyspeed then pa.topyspeed else y }
  else pa

/-- The jumping section of run_simulation: grounded, the jump-lock timer counts down
and FIRE1 launches a jump along the surface normal; midair, the short-hop jump
sensitivity clamps an unheld jump to jmprel (WANT_JUMP_ATTENUATION is 0). -/
def step_jump (map : ObstacleMap) (dt : ℚ) (par : PhysicsActor × Readout) :
    PhysicsActor × Readout :=
  let pa := par.1
  if ¬pa.midair then
    let pa := { pa with jump_lock_timer := pa.jump_lock_timer - dt }
    if pa.jump_lock_timer ≤ 0 then
      let pa := { pa with jump_lock_timer := 0 }
      if pa.input.fire1_pressed ∧
         ((¬pa.input.up_down ∧ ¬pa.input.down_down) ∨ pa.state = PAS.rolling) ∧
         ¬pa.touching_ceiling then
        let pa := { pa with
          xsp := pa.jmp * SIN pa.angle + pa.gsp * COS pa.angle,
          ysp := pa.jmp * COS pa.angle - pa.gsp * SIN pa.angle }
        let pa := { pa with gsp := 0, state := PAS.jumping }
        force_angle map pa 0
      else (pa, par.2)
    else (pa, par.2)
  else
    if pa.state = PAS.jumping ∧ ¬pa.input.fire1_down ∧ pa.ysp < pa.jmprel then
      ({ pa with ysp := pa.jmprel }, par.2)
    else (pa, par.2)

/-- The inner loop of the incremental movement: translate by one increment, re-read
the sensors, and zero the blocked axis of the increment per movement mode; exit early
when both axes are zeroed. -/
def move_loop (map : ObstacleMap) (sx sy : Int) :
    Nat → ℚ × ℚ → PhysicsActor × Readout → PhysicsActor × Readout
  | 0, _, par => par
  | Nat.succ fuel, inc, par =>
    let pa := par.1
    let pa := { pa with position := ⟨pa.position.x + inc.1, pa.position.y + inc.2⟩ }
    let pr := update_sensors map pa
    let pa := pr.1
    let r := pr.2
    let inc : ℚ × ℚ :=
      match pa.movmode with
      | MM.floor =>
        ((if (r.at_M.isSome ∧ sx < 0) ∨ (r.at_N.isSome ∧ sx > 0) then 0 else inc.1),
         (if (r.at_C.isSome ∨ r.at_D.isSome) ∧ sy < 0 then 0 else inc.2))
      | MM.rightwall =>
        ((if (r.at_C.isSome ∨ r.at_D.isSome) ∧ sx < 0 then 0 else inc.1),
         (if (r.at_M.isSome ∧ sy > 0) ∨ (r.at_N.isSome ∧ sy < 0) then 0 else inc.2))
      | MM.ceiling =>
        ((if (r.at_M.isSome ∧ sx > 0) ∨ (r.at_N.isSome ∧ sx < 0) then 0 else inc.1),
         (if (r.at_C.isSome ∨ r.at_D.isSome) ∧ sy > 0 then 0 else inc.2))
      | MM.leftwall =>
        ((if (r.at_C.isSome ∨ r.at_D.isSome) ∧ sx > 0 then 0 else inc.1),
         (if (r.at_M.isSome ∧ sy < 0) ∨ (r.at_N.isSome ∧ sy > 0) then 0 else inc.2))
    if inc.1 = 0 ∧ inc.2 = 0 then (pa, r)
    else move_loop map sx sy fuel inc (pa, r)

/-- The position-update section of run_simulation: move by small increments for a
more robust collision detection. The number of increments is the minimum of
ceil(max(capspeed, topyspeed)/TARGET_FPS / 2) and the ceiling of the displacement
magnitude (the latter modelled exactly by ceil_sqrt of the squared magnitude). -/
def step_move (map : ObstacleMap) (dt : ℚ) (par : PhysicsActor × Readout) :
    PhysicsActor × Readout :=
  let pa := par.1
  let dsx := pa.xsp * dt
  let dsy := pa.ysp * dt
  let sx : Int := (if dsx > 0 then 1 else 0) - (if dsx < 0 then 1 else 0)
  let sy : Int := (if dsy > 0 then 1 else 0) - (if dsy < 0 then 1 else 0)
  let max_ds_length := qmax pa.capspeed pa.topyspeed / TARGET_FPS
  let max_increments : Int := ⌈max_ds_length / 2⌉
  let num_increments : Int := min max_increments (ceil_sqrt (dsx * dsx + dsy * dsy))
  let inc : ℚ × ℚ :=
    if num_increments > 0 then (dsx / (num_increments : ℚ), dsy / (num_increments : ℚ))
    else (0, 0)
  move_loop map sx sy num_increments.toNat inc par

/-- The stop-if-we-land-after-getting-hit section of run_simulation. -/
def step_land_after_hit (pa : PhysicsActor) : PhysicsActor :=
  if ¬pa.midair ∧ pa.was_midair ∧ pa.state = PAS.gettinghit then
    { pa with gsp := 0, xsp := 0, state := PAS.stopped }
  else pa

/-- The repositioning of the right-wall response: per movement mode, the new position
component, velocity clamp, and whether the angle is reset to 0. -/
def wall_N_reposition (oN : Obstacle) (tail ltail : Point) (pa : PhysicsActor) :
    PhysicsActor × Bool :=
  match pa.movmode with
  | MM.floor =>
    let wall := oN.ground_position tail.x tail.y GD.right
    ({ pa with position := { pa.position with x := ((wall - ltail.x - 1 : Int) : ℚ) },
               xsp := qmin pa.xsp 0 }, false)
  | MM.ceiling =>
    let wall := oN.ground_position tail.x tail.y GD.left
    ({ pa with position := { pa.position with x := ((wall - ltail.x + 1 : Int) : ℚ) },
               xsp := qmax pa.xsp 0 }, true)
  | MM.rightwall =>
    let wall := oN.ground_position tail.x tail.y GD.up
    ({ pa with position := { pa.position with y := ((wall - ltail.y - 1 : Int) : ℚ) },
               ysp := qmax pa.ysp 0 }, true)
  | MM.leftwall =>
    let wall := oN.ground_position tail.x tail.y GD.down
    ({ pa with position := { pa.position with y := ((wall - ltail.y + 1 : Int) : ℚ) },
               ysp := qmin pa.ysp 0 }, true)

/-- The right-wall collision section of run_simulation (sensor N hit). -/
def step_wall_N (map : ObstacleMap) (par : PhysicsActor × Readout) :
    PhysicsActor × Readout :=
  let pa := par.1
  match par.2.at_N with
  | none => par
  | some oN =>
    let s := sensor_N pa
    let fpos : V2 := ⟨(⌊pa.position.x⌋ : Int), (⌊pa.position.y⌋ : Int)⟩
    let tail := sensor_tail s fpos pa.movmode
    let ltail : Point := ⟨tail.x - ⌊pa.position.x⌋, tail.y - ⌊pa.position.y⌋⟩
    let pa := if pa.gsp > 0 then { pa with gsp := 0 } else pa
    let pb := wall_N_reposition oN tail ltail pa
    let pr := if ¬pb.2 then update_sensors map pb.1 else force_angle map pb.1 0
    let pa := pr.1
    let pa :=
      if ¬pa.midair ∧ pa.movmode = MM.floor ∧ pa.state ≠ PAS.rolling then
        if pa.input.right_down then { pa with state := PAS.pushing, facing_right := true }
        else { pa with state := PAS.stopped }
      else pa
    (pa, pr.2)

/-- The repositioning of the left-wall response; mirrors wall_N_reposition with the
head of sensor M. -/
def wall_M_reposition (oM : Obstacle) (hd lhead : Point) (pa : PhysicsActor) :
    PhysicsActor × Bool :=
  match pa.movmode with
  | MM.floor =>
    let wall := oM.ground_position hd.x hd.y GD.left
    ({ pa with position := { pa.position with x := ((wall - lhead.x + 1 : Int) : ℚ) },
               xsp := qmax pa.xsp 0 }, false)
  | MM.ceiling =>
    let wall := oM.ground_position hd.x hd.y GD.right
    ({ pa with position := { pa.position with x := ((wall - lhead.x - 1 : Int) : ℚ) },
               xsp := qmin pa.xsp 0 }, true)
  | MM.rightwall =>
    let wall := oM.ground_position hd.x hd.y GD.down
    ({ pa with position := { pa.position with y := ((wall - lhead.y - 1 : Int) : ℚ) },
               ysp := qmin pa.ysp 0 }, true)
  | MM.leftwall =>
    let wall := oM.ground_position hd.x hd.y GD.up
    ({ pa with position := { pa.position with y := ((wall - lhead.y + 1 : Int) : ℚ) },
               ysp := qmax pa.ysp 0 }, true)

/-- The left-wall collision section of run_simulation (sensor M hit). -/
def step_wall_M (map : ObstacleMap) (par : PhysicsActor × Readout) :
    PhysicsActor × Readout :=
  let pa := par.1
  match par.2.at_M with
  | none => par
  | some oM =>
    let s := sensor_M pa
    let fpos : V2 := ⟨(⌊pa.position.x⌋ : Int), (⌊pa.position.y⌋ : Int)⟩
    let hd := sensor_head s fpos pa.movmode
    let lhead : Point := ⟨hd.x - ⌊pa.position.x⌋, hd.y - ⌊pa.position.y⌋⟩
    let pa := if pa.gsp < 0 then { pa with gsp := 0 } else pa
    let pb := wall_M_reposition oM hd lhead pa
    let pr := if ¬pb.2 then update_sensors map pb.1 else force_angle map pb.1 0
    let pa := pr.1
    let pa :=
      if ¬pa.midair ∧ pa.movmode = MM.floor ∧ pa.state ≠ PAS.rolling then
        if pa.input.left_down then { pa with state := PAS.pushing, facing_right := false }
        else { pa with state := PAS.stopped }
      else pa
    (pa, pr.2)

/-- The reattachment assignment of the ceiling response: when the reacquired angle
lies in the steep ceiling bands and the actor is grounded, the ground speed comes
from the airborne velocity and the velocities are zeroed. -/
def ceiling_reattach (pa : PhysicsActor) : PhysicsActor :=
  let pa := { pa with
    gsp := if |pa.xsp| > -pa.ysp then -pa.xsp else pa.ysp * (-sign (SIN pa.angle)) }
  let pa := { pa with xsp := 0, ysp := 0 }
  if pa.state ≠ PAS.rolling then { pa with state := walking_or_running pa } else pa

/-- The ceiling collision section of run_simulation. -/
def step_ceiling (map : ObstacleMap) (par : PhysicsActor × Readout) :
    PhysicsActor × Readout :=
  let pa := par.1
  let r := par.2
  if pa.midair ∧ pa.touching_ceiling then
    let pickC := pick_the_best_ceiling pa r.at_C r.at_D (sensor_C pa) (sensor_D pa)
    let ceiling := if pickC then r.at_C else r.at_D
    let ceiling_sensor := if pickC then sensor_C pa else sensor_D pa
    let res : (PhysicsActor × Readout) × Bool :=
      if pa.ysp < 0 then
        let pr := force_angle map pa 0x80
        let pr := set_auto_angle map pr
        let pa2 := pr.1
        if (0xA0 ≤ pa2.angle ∧ pa2.angle ≤ 0xBF) ∨ (0x40 ≤ pa2.angle ∧ pa2.angle ≤ 0x5F) then
          if ¬pa2.midair then ((ceiling_reattach pa2, pr.2), true)
          else ((pa2, pr.2), false)
        else ((pa2, pr.2), false)
      else ((pa, r), false)
    if ¬res.2 then
      let pa := res.1.1
      let pa := { pa with ysp := qmax pa.ysp 0 }
      let pr2 := force_angle map pa 0
      let pa := pr2.1
      match ceiling with
      | some oc =>
        let fpos : V2 := ⟨(⌊pa.position.x⌋ : Int), (⌊pa.position.y⌋ : Int)⟩
        let hd := sensor_head ceiling_sensor fpos pa.movmode
        let lhead : Point := ⟨hd.x - ⌊pa.position.x⌋, hd.y - ⌊pa.position.y⌋⟩
        let cp := oc.ground_position hd.x hd.y GD.up
        let pa := { pa with position := { pa.position with y := ((cp - lhead.y + 1 : Int) : ℚ) } }
        update_sensors map pa
      | none => update_sensors map pa
    else res.1
  else par

/-- The u-search loop of the sticky-physics section: starting at u, walk down (in
local "down" per movement mode) while u < 12 until an obstacle exists under the foot
sensor tail (x, y). Returns the final u. -/
def sticky_probe_loop (map : ObstacleMap) (pa : PhysicsActor) (x y : Int) :
    Nat → Int → Int
  | 0, u => u
  | Nat.succ fuel, u =>
    if u < 12 then
      let hit :=
        match pa.movmode with
        | MM.floor => map.obstacle_exists x (y + u) pa.layer
        | MM.rightwall => map.obstacle_exists (y + u) x pa.layer
        | MM.ceiling => map.obstacle_exists x (y - u) pa.layer
        | MM.leftwall => map.obstacle_exists (y - u) x pa.layer
      if hit then u else sticky_probe_loop map pa x y fuel (u + 1)
    else u

/-- The body of the sticky-physics section: compute the test offset, translate, clear
midair, reacquire the angle, and undo the translation when the actor is still midair
(setting the sticky lock when Rolling). -/
def sticky_body (map : ObstacleMap) (par : PhysicsActor × Readout) :
    PhysicsActor × Readout :=
  let pa := par.1
  let u : Int :=
    if |pa.xsp| > pa.topspeed ∨ pa.state = PAS.rolling then
      let s := if pa.xsp > 0 then sensor_B pa else sensor_A pa
      let t := sensor_tail s pa.position pa.movmode
      sticky_probe_loop map pa t.x t.y 8 4
    else 4
  let offset : V2 :=
    match pa.movmode with
    | MM.floor => ⟨0, (u : ℚ)⟩
    | MM.ceiling => ⟨0, (-u : ℚ)⟩
    | MM.rightwall => ⟨(u : ℚ), 0⟩
    | MM.leftwall => ⟨(-u : ℚ), 0⟩
  let pa := { pa with position := ⟨pa.position.x + offset.x, pa.position.y + offset.y⟩ }
  let pa := { pa with midair := false }
  let pr := set_auto_angle map (pa, par.2)
  if pr.1.midair then
    let pa := { pr.1 with position := ⟨pr.1.position.x - offset.x, pr.1.position.y - offset.y⟩ }
    let pr2 := set_auto_angle map (pa, pr.2)
    let pa2 := if pr2.1.state = PAS.rolling then { pr2.1 with sticky_lock := true } else pr2.1
    (pa2, pr2.2)
  else pr

/-- The sticky-physics section of run_simulation. -/
def step_sticky (map : ObstacleMap) (par : PhysicsActor × Readout) :
    PhysicsActor × Readout :=
  let pa := par.1
  if pa.midair ∧
     ((¬pa.was_midair ∧ pa.state ≠ PAS.jumping ∧ pa.state ≠ PAS.gettinghit ∧
       pa.state ≠ PAS.springing ∧ pa.state ≠ PAS.drowned ∧ pa.state ≠ PAS.dead) ∨
      (pa.state = PAS.rolling ∧ ¬pa.sticky_lock)) then
    sticky_body map par
  else if ¬pa.midair ∧ pa.state = PAS.rolling then
    ({ pa with sticky_lock := false }, par.2)
  else par

/-- The position snap of the stick-to-the-ground section: per movement mode, set the
position so that the chosen ground sensor's tail lands on the obstacle's directional
ground position minus (y2 - 1). -/
def ground_snap_position (og : Obstacle) (gs : Sensor) (pa : PhysicsActor) :
    PhysicsActor :=
  let offset := gs.y2 - 1
  match pa.movmode with
  | MM.leftwall =>
    { pa with position := { pa.position with x :=
        ((og.ground_position (ctrunc pa.position.x - gs.y2)
            (ctrunc pa.position.y + gs.x2) GD.left + offset : Int) : ℚ) } }
  | MM.ceiling =>
    { pa with position := { pa.position with y :=
        ((og.ground_position (ctrunc pa.position.x - gs.x2)
            (ctrunc pa.position.y - gs.y2) GD.up + offset : Int) : ℚ) } }
  | MM.rightwall =>
    { pa with position := { pa.position with x :=
        ((og.ground_position (ctrunc pa.position.x + gs.y2)
            (ctrunc pa.position.y - gs.x2) GD.right - offset : Int) : ℚ) } }
  | MM.floor =>
    { pa with position := { pa.position with y :=
        ((og.ground_position (ctrunc pa.position.x + gs.x2)
            (ctrunc pa.position.y + gs.y2) GD.down - offset : Int) : ℚ) } }

/-- The additional adjustments of the stick-to-the-ground section when first touching
the ground in Floor mode: fix the speed, unroll after rolling midair, or fix the
animation. -/
def ground_snap_landing (pa : PhysicsActor) : PhysicsActor :=
  if pa.was_midair then
    if pa.movmode = MM.floor then
      let pa := { pa with gsp := pa.xsp }
      if pa.state = PAS.rolling then
        if pa.midair_timer ≥ 0.2 ∧ ¬pa.input.down_down then
          let pa := { pa with state := walking_or_running pa }
          if ¬nearly_zero pa.gsp then { pa with facing_right := pa.gsp > 0 } else pa
        else pa
      else { pa with state := walking_or_running pa }
    else pa
  else pa

/-- The stick-to-the-ground section of run_simulation: pick the best ground of A/B,
snap the position onto it, apply the landing adjustments, and reacquire the angle. -/
def step_ground_snap (map : ObstacleMap) (par : PhysicsActor × Readout) :
    PhysicsActor × Readout :=
  let pa := par.1
  let r := par.2
  if ¬pa.midair ∧
     ¬((pa.state = PAS.jumping ∨ pa.state = PAS.gettinghit ∨ pa.state = PAS.springing ∨
        pa.state = PAS.drowned ∨ pa.state = PAS.dead) ∧ pa.ysp < 0) then
    let pickA := pick_the_best_ground pa r.at_A r.at_B (sensor_A pa) (sensor_B pa)
    let ground := if pickA then r.at_A else r.at_B
    let gs := if pickA then sensor_A pa else sensor_B pa
    match ground with
    | none => par
    | some og =>
      let pa := ground_snap_position og gs pa
      let pa := ground_snap_landing pa
      set_auto_angle map (pa, r)
  else par

/-- The reacquisition-of-the-ground section of run_simulation: on the midair-to-
grounded transition, reacquire the ground speed from the airborne velocity depending
on the landing angle, zero the velocities, and fix the animation. -/
def step_reacquire_ground (pa : PhysicsActor) : PhysicsActor :=
  if ¬pa.midair ∧ pa.was_midair then
    let pa :=
      if pa.angle ≥ 0xF0 ∨ pa.angle ≤ 0x0F then { pa with gsp := pa.xsp }
      else if (0xE0 ≤ pa.angle ∧ pa.angle ≤ 0xEF) ∨ (0x10 ≤ pa.angle ∧ pa.angle ≤ 0x1F) then
        { pa with gsp :=
            if |pa.xsp| > pa.ysp then pa.xsp else pa.ysp * 0.5 * (-sign (SIN pa.angle)) }
      else if (0xC0 ≤ pa.angle ∧ pa.angle ≤ 0xDF) ∨ (0x20 ≤ pa.angle ∧ pa.angle ≤ 0x3F) then
        { pa with gsp :=
            if |pa.xsp| > pa.ysp then pa.xsp else pa.ysp * (-sign (SIN pa.angle)) }
      else pa
    let pa := { pa with xsp := 0, ysp := 0 }
    if pa.state ≠ PAS.rolling then { pa with state := walking_or_running pa } else pa
  else pa

/-- The falling-off-walls-and-ceilings section of run_simulation. -/
def step_falloff (map : ObstacleMap) (par : PhysicsActor × Readout) :
    PhysicsActor × Readout :=
  let pa := par.1
  if ¬pa.midair ∧ pa.movmode ≠ MM.floor ∧ pa.hlock_timer = 0 ∧
     |pa.gsp| < pa.falloffthreshold then
    let pa := { pa with hlock_timer := 0.5 }
    if 0x40 ≤ pa.angle ∧ pa.angle ≤ 0xC0 then
      force_angle map { pa with gsp := 0 } 0
    else (pa, par.2)
  else par

/-- The misc section of run_simulation: reset the angle midair, update the midair
timer, and fix invalid states. -/
def step_misc (map : ObstacleMap) (dt : ℚ) (par : PhysicsActor × Readout) :
    PhysicsActor × Readout :=
  let pa := par.1
  let pr :=
    if pa.midair then
      let pa := { pa with midair_timer := pa.midair_timer + dt }
      let pr := force_angle map pa 0
      let pa := pr.1
      ((if pa.ysp < 0 then { pa with gsp := 0 } else pa), pr.2)
    else ({ pa with midair_timer := 0 }, par.2)
  let pa := pr.1
  let pa :=
    if pa.midair then
      if pa.state = PAS.pushing ∨ pa.state = PAS.stopped ∨ pa.state = PAS.waiting ∨
         pa.state = PAS.ducking ∨ pa.state = PAS.lookingup then
        { pa with state := walking_or_running pa }
      else pa
    else
      if pa.state = PAS.walking ∧ nearly_zero pa.gsp then { pa with state := PAS.stopped }
      else pa
  (pa, pr.2)

/-- The dead/drowned early return of run_simulation: gravity capped at topyspeed,
vertical motion only, facing forced right. -/
def death_motion (dt : ℚ) (pa : PhysicsActor) : PhysicsActor :=
  let y := qmin (pa.ysp + pa.grv * dt) pa.topyspeed
  { pa with ysp := y,
            position := { pa.position with y := pa.position.y + y * dt },
            facing_right := true }

/-- run_simulation: one tick of the physics simulation. -/
def run_simulation (map : ObstacleMap) (pa : PhysicsActor) (dt : ℚ) : PhysicsActor :=
  let pr := update_sensors map pa
  let pa := { pr.1 with was_midair := pr.1.midair }
  if pa.state = PAS.dead ∨ pa.state = PAS.drowned then death_motion dt pa
  else
    let r := pr.2
    let pa := step_gettinghit pa
    let pa := step_waiting dt pa
    let pa := step_winning pa
    let pa := step_hlock dt pa
    let pa := step_facing pa
    let pa := step_walk_run dt pa
    let pa := step_duck_look pa
    let pa := step_springing pa
    let pa := step_breathing dt pa
    let pa := step_ledge map r pa
    let pa := step_rolling dt pa
    let pa := step_charge dt pa
    let pa := step_ground_speed pa
    let pa := step_air dt pa
    let pr := step_jump map dt (pa, r)
    let pr := step_move map dt pr
    let pr := (step_land_after_hit pr.1, pr.2)
    let pr := step_wall_N map pr
    let pr := step_wall_M map pr
    let pr := step_ceiling map pr
    let pr := step_sticky map pr
    let pr := step_ground_snap map pr
    let pr := (step_reacquire_ground pr.1, pr.2)
    let pr := step_falloff map pr
    let pr := step_misc map dt pr
    pr.1

/-- The inside-a-solid-brick test at the top of physicsactor_update: sensor U
(always enabled) against a solid obstacle. -/
def update_inside_wall (map : ObstacleMap) (pa : PhysicsActor) : PhysicsActor :=
  let at_U := sensor_check (sensor_U pa) true pa.position pa.movmode pa.layer map
  { pa with inside_wall := match at_U with | some o => o.solid | none => false }

/-- physicsactor_update: the inside-wall test against sensor U followed by the
fixed-timestep driver (WANT_FIXED_TIMESTEP is 1 in the source); dt models
timer_get_delta(). -/
def physicsactor_update (map : ObstacleMap) (pa : PhysicsActor) (dt : ℚ) :
    PhysicsActor :=
  let pa := update_inside_wall map pa
  let pa := { pa with reference_time := pa.reference_time + dt }
  if pa.reference_time ≤ pa.fixed_time + FIXED_TIMESTEP then
    let pa2 := run_simulation map pa FIXED_TIMESTEP
    { pa2 with fixed_time := pa2.fixed_time + FIXED_TIMESTEP }
  else
    let pa2 := run_simulation map pa dt
    { pa2 with fixed_time := pa2.reference_time }

/-- physicsactor_ressurrect: returns whether the actor was revived, along with the
updated actor (the C returns a bool and mutates in place). -/
def physicsactor_ressurrect (pa : PhysicsActor) (position : V2) :
    Bool × PhysicsActor :=
  if pa.state = PAS.dead ∨ pa.state = PAS.drowned then
    (true, { pa with gsp := 0, xsp := 0, ysp := 0, facing_right := true,
                     state := PAS.stopped, position := position })
  else (false, pa)

/-- physicsactor_set_airdrag: clamp the air drag to [0,1] and recompute the
coefficients of the linear approximation; the logf of the C library is passed as a
function parameter. -/
def physicsactor_set_airdrag (log : ℚ → ℚ) (pa : PhysicsActor) (value : ℚ) :
    PhysicsActor :=
  let a := clip01 value
  if a > 0 ∧ a < 1 then
    { pa with airdrag := a,
              airdrag_coefficient0 := 60 * a * log a,
              airdrag_coefficient1 := a * (1 - log a) }
  else if a > 0 then
    { pa with airdrag := a, airdrag_coefficient0 := 0, airdrag_coefficient1 := 1 }
  else
    { pa with airdrag := a, airdrag_coefficient0 := 0, airdrag_coefficient1 := 0 }

/-- physicsactor_lock_horizontally_for: clamps negative durations to 0 and only
increases the lock timer. -/
def physicsactor_lock_horizontally_for (pa : PhysicsActor) (seconds : ℚ) :
    PhysicsActor :=
  let s := qmax seconds 0
  if s > pa.hlock_timer then { pa with hlock_timer := s } else pa

/-- physicsactor_reset_model_parameters: the default model, with fpsmul = TARGET_FPS;
ends by recomputing the air drag coefficients through physicsactor_set_airdrag. -/
def physicsactor_reset_model_parameters (log : ℚ → ℚ) (pa : PhysicsActor) :
    PhysicsActor :=
  let fpsmul : ℚ := TARGET_FPS
  let pa := { pa with
    acc := 3 / 64 * fpsmul * fpsmul,
    dec := 0.5 * fpsmul * fpsmul,
    frc := 3 / 64 * fpsmul * fpsmul,
    capspeed := 16 * fpsmul,
    topspeed := 6 * fpsmul,
    topyspeed := 16 * fpsmul,
    air := 6 / 64 * fpsmul * fpsmul,
    airdrag := 31 / 32,
    jmp := -6.5 * fpsmul,
    jmprel := -4 * fpsmul,
    diejmp := -7 * fpsmul,
    hitjmp := -4 * fpsmul,
    grv := 14 / 64 * fpsmul * fpsmul,
    slp := 8 / 64 * fpsmul * fpsmul,
    chrg := 12 * fpsmul,
    walkthreshold := 0.5 * fpsmul,
    unrollthreshold := 0.5 * fpsmul,
    rollthreshold := 1 * fpsmul,
    rollfrc := 3 / 128 * fpsmul * fpsmul,
    rolldec := 8 / 64 * fpsmul * fpsmul,
    rolluphillslp := 5 / 64 * fpsmul * fpsmul,
    rolldownhillslp := 20 / 64 * fpsmul * fpsmul,
    falloffthreshold := 2.5 * fpsmul,
    brakingthreshold := 4 * fpsmul,
    airdragthreshold := -4 * fpsmul,
    airdragxthreshold := 8 / 64 * fpsmul,
    chrgthreshold := 1 / 64,
    waittime := 3 }
  physicsactor_set_airdrag log pa pa.airdrag

/-- physicsactor_create: the initial actor. The fields was_midair, inside_wall and
the angle_sensor pair are not initialized by the C constructor; they are modelled as
false and the origin. The logf used by set_airdrag is a parameter. -/
def physicsactor_create (log : ℚ → ℚ) (position : V2) : PhysicsActor :=
  physicsactor_reset_model_parameters log
    { position := position, xsp := 0, ysp := 0, gsp := 0,
      acc := 0, dec := 0, frc := 0, capspeed := 0, topspeed := 0, topyspeed := 0,
      air := 0, airdrag := 0, jmp := 0, jmprel := 0, diejmp := 0, hitjmp := 0,
      grv := 0, slp := 0, chrg := 0, rollfrc := 0, rolldec := 0, rolluphillslp := 0,
      rolldownhillslp := 0, rollthreshold := 0, unrollthreshold := 0,
      walkthreshold := 0, falloffthreshold := 0, brakingthreshold := 0,
      airdragthreshold := 0, airdragxthreshold := 0, chrgthreshold := 0, waittime := 0,
      angle := 0, midair := true, was_midair := false, facing_right := true,
      touching_ceiling := false, inside_wall := false, winning_pose := false,
      hlock_timer := 0, jump_lock_timer := 0, wait_timer := 0, midair_timer := 0,
      breathe_timer := 0, sticky_lock := false, charge_intensity := 0,
      airdrag_coefficient0 := 0, airdrag_coefficient1 := 1,
      state := PAS.stopped, movmode := MM.floor, layer := 0, input := {},
      angle_sensor0 := ⟨0, 0⟩, angle_sensor1 := ⟨0, 0⟩,
      reference_time := 0, fixed_time := 0 }

/-- A zero stand-in for logf when building concrete actors (its value is irrelevant
to the scenarios below, whose air drag never applies). -/
def log_zero : ℚ → ℚ := fun _ => 0

/-- An obstacle map with no obstacles. -/
def empty_map : ObstacleMap :=
  { best_obstacle_at := fun _ _ _ _ _ _ => none,
    obstacle_exists := fun _ _ _ => false }

/-- An empty sensor readout. -/
def empty_readout : Readout := ⟨none, none, none, none, none, none⟩

/-- A solid flat floor whose surface is at y = 100. -/
def floor_obstacle : Obstacle :=
  { id := 7, solid := true, ground_position := fun _ _ _ => 100,
    point_collision := fun _ _ => true }

/-- An obstacle map holding only floor_obstacle: a query region touches it exactly
when one of its y endpoints reaches y = 100. -/
def flat_floor_map : ObstacleMap :=
  { best_obstacle_at := fun _ y1 _ y2 _ _ =>
      if y1 ≥ 100 ∨ y2 ≥ 100 then some floor_obstacle else none,
    obstacle_exists := fun _ y _ => y ≥ 100 }

/-- A cloud (non-solid obstacle) under sensor A with down-facing ground position 15:
the higher of the two clouds below (smaller ground y). -/
def cloud_high : Obstacle :=
  { id := 1, solid := false, ground_position := fun _ _ _ => 15,
    point_collision := fun _ _ => true }

/-- A cloud under sensor B with down-facing ground position 30: the lower cloud. -/
def cloud_low : Obstacle :=
  { id := 2, solid := false, ground_position := fun _ _ _ => 30,
    point_collision := fun _ _ => true }

/-- An obstacle map where the vertical line x = -9 (sensor A) meets cloud_high and
the line x = 9 (sensor B) meets cloud_low. -/
def two_clouds_map : ObstacleMap :=
  { best_obstacle_at := fun x1 _ _ _ _ _ =>
      if x1 = -9 then some cloud_high else if x1 = 9 then some cloud_low else none,
    obstacle_exists := fun _ _ _ => false }

/-- A midair actor at the origin in Floor mode with angle 0 and no velocity. -/
def actor_midair : PhysicsActor :=
  { physicsactor_create log_zero ⟨0, 0⟩ with state := PAS.walking, midair := true }

/-- A fast airborne actor falling onto the flat floor: xsp = 2000 exceeds capspeed
(960) and is restored into gsp on landing. -/
def actor_falling_fast : PhysicsActor :=
  { physicsactor_create log_zero ⟨0, 70⟩ with
      state := PAS.walking, midair := true, ysp := 600, xsp := 2000 }

/-- A grounded actor whose ground speed exceeds capspeed before the clamp. -/
def actor_grounded_fast : PhysicsActor :=
  { physicsactor_create log_zero ⟨0, 0⟩ with
      state := PAS.running, midair := false, gsp := 2000 }

/-- A grounded charging actor with intensity 1/2 and no buttons held. -/
def actor_charging : PhysicsActor :=
  { physicsactor_create log_zero ⟨0, 0⟩ with
      state := PAS.charging, midair := false, charge_intensity := 1 / 2 }

/-- A midair jumping actor rising faster than jmprel with FIRE1 not held. -/
def actor_jumping : PhysicsActor :=
  { physicsactor_create log_zero ⟨0, 0⟩ with
      state := PAS.jumping, midair := true, ysp := -300 }

/-- A dead actor. -/
def actor_dead : PhysicsActor :=
  { physicsactor_create log_zero ⟨0, 0⟩ with state := PAS.dead, ysp := 10 }

/-- C6: resurrect(position) returns true exactly when the state is Dead or Drowned,
and otherwise returns false leaving the whole actor unchanged. -/
theorem ressurrect_guard (pa : PhysicsActor) (p : V2) :
    ((physicsactor_ressurrect pa p).1 = true ↔
      (pa.state = PAS.dead ∨ pa.state = PAS.drowned)) ∧
    (¬(pa.state = PAS.dead ∨ pa.state = PAS.drowned) →
      (physicsactor_ressurrect pa p).1 = false ∧ (physicsactor_ressurrect pa p).2 = pa) := by
  unfold physicsactor_ressurrect
  split_ifs with h
  · simp [h]
  · simp [h]

/-- C10: resurrect(p) from Dead or Drowned zeroes gsp, xsp and ysp, faces right,
enters Stopped and moves to p. -/
theorem ressurrect_revives (pa : PhysicsActor) (p : V2)
    (h : pa.state = PAS.dead ∨ pa.state = PAS.drowned) :
    (physicsactor_ressurrect pa p).2.gsp = 0 ∧
    (physicsactor_ressurrect pa p).2.xsp = 0 ∧
    (physicsactor_ressurrect pa p).2.ysp = 0 ∧
    (physicsactor_ressurrect pa p).2.facing_right = true ∧
    (physicsactor_ressurrect pa p).2.state = PAS.stopped ∧
    (physicsactor_ressurrect pa p).2.position = p := by
  unfold physicsactor_ressurrect
  rw [if_pos h]
  exact ⟨rfl, rfl, rfl, rfl, rfl, rfl⟩

/-- Witness for C10 at a concrete dead actor. -/
theorem ressurrect_revives_witness :
    (actor_dead.state = PAS.dead ∨ actor_dead.state = PAS.drowned) ∧
    ((physicsactor_ressurrect actor_dead ⟨5, 6⟩).2.gsp = 0 ∧
     (physicsactor_ressurrect actor_dead ⟨5, 6⟩).2.xsp = 0 ∧
     (physicsactor_ressurrect actor_dead ⟨5, 6⟩).2.ysp = 0 ∧
     (physicsactor_ressurrect actor_dead ⟨5, 6⟩).2.facing_right = true ∧
     (physicsactor_ressurrect actor_dead ⟨5, 6⟩).2.state = PAS.stopped ∧
     (physicsactor_ressurrect actor_dead ⟨5, 6⟩).2.position = ⟨5, 6⟩) :=
  ⟨Or.inl rfl, ressurrect_revives actor_dead ⟨5, 6⟩ (Or.inl rfl)⟩

/-- clip01 lands in the unit interval (helper). -/
theorem clip01_mem (v : ℚ) : 0 ≤ clip01 v ∧ clip01 v ≤ 1 := by
  unfold clip01 clip qmin qmax
  split_ifs <;> constructor <;> linarith

/-- C5: set_airdrag stores the clamp of the input to [0,1] and the derived
coefficients match the piecewise formula: (60 a ln a, a(1 - ln a)) for 0 < a < 1,
(0, 1) for a = 1, and (0, 0) for a = 0. -/
theorem set_airdrag_coefficients (log : ℚ → ℚ) (pa : PhysicsActor) (v : ℚ) :
    (physicsactor_set_airdrag log pa v).airdrag = clip01 v ∧
    0 ≤ (physicsactor_set_airdrag log pa v).airdrag ∧
    (physicsactor_set_airdrag log pa v).airdrag ≤ 1 ∧
    (0 < (physicsactor_set_airdrag log pa v).airdrag ∧
       (physicsactor_set_airdrag log pa v).airdrag < 1 →
      (physicsactor_set_airdrag log pa v).airdrag_coefficient0 =
        60 * (physicsactor_set_airdrag log pa v).airdrag *
          log ((physicsactor_set_airdrag log pa v).airdrag) ∧
      (physicsactor_set_airdrag log pa v).airdrag_coefficient1 =
        (physicsactor_set_airdrag log pa v).airdrag *
          (1 - log ((physicsactor_set_airdrag log pa v).airdrag))) ∧
    ((physicsactor_set_airdrag log pa v).airdrag = 1 →
      (physicsactor_set_airdrag log pa v).airdrag_coefficient0 = 0 ∧
      (physicsactor_set_airdrag log pa v).airdrag_coefficient1 = 1) ∧
    ((physicsactor_set_airdrag log pa v).airdrag = 0 →
      (physicsactor_set_airdrag log pa v).airdrag_coefficient0 = 0 ∧
      (physicsactor_set_airdrag log pa v).airdrag_coefficient1 = 0) := by
  have hb := clip01_mem v
  simp only [physicsactor_set_airdrag]
  split_ifs with h1 h2
  · exact ⟨rfl, hb.1, hb.2, fun _ => ⟨rfl, rfl⟩,
      fun he => absurd (he : clip01 v = 1) (ne_of_lt h1.2),
      fun he => absurd (he : clip01 v = 0) (ne_of_gt h1.1)⟩
  · have ha : clip01 v = 1 := by
      rcases not_and_or.mp h1 with hx | hx
      · exact absurd h2 hx
      · exact le_antisymm hb.2 (not_lt.mp hx)
    refine ⟨rfl, hb.1, hb.2, ?_, fun _ => ⟨rfl, rfl⟩, ?_⟩
    · intro hc
      exact absurd ha (ne_of_lt (hc.2 : clip01 v < 1))
    · intro he
      rw [ha] at he
      exact absurd he one_ne_zero
  · have ha : clip01 v = 0 := le_antisymm (not_lt.mp h2) hb.1
    refine ⟨rfl, hb.1, hb.2, ?_, ?_, fun _ => ⟨rfl, rfl⟩⟩
    · intro hc
      exact absurd ha (ne_of_gt (hc.1 : 0 < clip01 v))
    · intro he
      rw [ha] at he
      exact absurd he zero_ne_one

/-- The charge-intensity update touches only the intensity (helper). -/
theorem charge_intensity_update_only (dt : ℚ) (pa : PhysicsActor) :
    (charge_intensity_update dt pa).input = pa.input ∧
    (charge_intensity_update dt pa).state = pa.state ∧
    (charge_intensity_update dt pa).facing_right = pa.facing_right ∧
    (charge_intensity_update dt pa).chrg = pa.chrg := by
  unfold charge_intensity_update
  split_ifs <;> exact ⟨rfl, rfl, rfl, rfl⟩

/-- C7: in the Charging state with DOWN released, the tick's charge section enters
Rolling with gsp = sign(facing)*chrg*(0.67 + 0.33*intensity) (intensity as updated
this tick), sets the jump lock timer to 3/32 s, and resets the intensity. -/
theorem charge_release_impulse (dt : ℚ) (pa : PhysicsActor)
    (hs : pa.state = PAS.charging) (hd : pa.input.down_down = false) :
    (step_charge dt pa).state = PAS.rolling ∧
    (step_charge dt pa).gsp =
      ((if pa.facing_right then (1 : ℚ) else -1) * pa.chrg) *
        (0.67 + (charge_intensity_update dt pa).charge_intensity * 0.33) ∧
    (step_charge dt pa).jump_lock_timer = 3 / 32 ∧
    (step_charge dt pa).charge_intensity = 0 := by
  have ho := charge_intensity_update_only dt pa
  simp only [step_charge]
  rw [hs]
  rw [if_neg (show ¬(PAS.charging = PAS.ducking) by decide)]
  rw [hs]
  rw [if_pos (rfl : PAS.charging = PAS.charging)]
  rw [if_pos (show ¬((charge_intensity_update dt pa).input.down_down = true) by
        rw [ho.1, hd]; simp)]
  refine ⟨rfl, ?_, by norm_num, rfl⟩
  rw [ho.2.2.1, ho.2.2.2]

/-- Witness for C7 at a concrete charging actor. -/
theorem charge_release_impulse_witness :
    actor_charging.state = PAS.charging ∧
    actor_charging.input.down_down = false ∧
    ((step_charge (1/60) actor_charging).state = PAS.rolling ∧
     (step_charge (1/60) actor_charging).gsp =
       ((if actor_charging.facing_right then (1 : ℚ) else -1) * actor_charging.chrg) *
         (0.67 + (charge_intensity_update (1/60) actor_charging).charge_intensity * 0.33) ∧
     (step_charge (1/60) actor_charging).jump_lock_timer = 3 / 32 ∧
     (step_charge (1/60) actor_charging).charge_intensity = 0) :=
  ⟨by with_unfolding_all decide, by with_unfolding_all decide,
   charge_release_impulse (1/60) actor_charging (by with_unfolding_all decide)
     (by with_unfolding_all decide)⟩

/-- C8: midair in Jumping, the jump section sets ysp to jmprel exactly when FIRE1 is
not held and ysp < jmprel, and leaves ysp unchanged when FIRE1 is held or
ysp is at least jmprel. -/
theorem jump_attenuation (map : ObstacleMap) (dt : ℚ) (par : PhysicsActor × Readout)
    (hm : par.1.midair = true) (hj : par.1.state = PAS.jumping) :
    ((par.1.input.fire1_down = false ∧ par.1.ysp < par.1.jmprel) →
       (step_jump map dt par).1.ysp = par.1.jmprel) ∧
    ((par.1.input.fire1_down = true ∨ par.1.ysp ≥ par.1.jmprel) →
       (step_jump map dt par).1.ysp = par.1.ysp) := by
  constructor
  · rintro ⟨hf, hy⟩
    have : step_jump map dt par = ({ par.1 with ysp := par.1.jmprel }, par.2) := by
      unfold step_jump
      rw [if_neg (by simp [hm]), if_pos ⟨hj, by simp [hf], hy⟩]
    rw [this]
  · intro hcase
    have : step_jump map dt par = (par.1, par.2) := by
      unfold step_jump
      rw [if_neg (by simp [hm]), if_neg ?_]
      rintro ⟨-, hf, hy⟩
      rcases hcase with hc | hc
      · simp [hc] at hf
      · exact absurd hy (not_lt.mpr hc)
    rw [this]

/-- Witness for C8 at a concrete rising jump. -/
theorem jump_attenuation_witness :
    (actor_jumping, empty_readout).1.midair = true ∧
    (actor_jumping, empty_readout).1.state = PAS.jumping ∧
    (actor_jumping, empty_readout).1.input.fire1_down = false ∧
    (actor_jumping, empty_readout).1.ysp < (actor_jumping, empty_readout).1.jmprel ∧
    (step_jump empty_map (1/60) (actor_jumping, empty_readout)).1.ysp =
      (actor_jumping, empty_readout).1.jmprel :=
  ⟨by with_unfolding_all decide, by with_unfolding_all decide, by with_unfolding_all decide,
   by with_unfolding_all decide,
   (jump_attenuation empty_map (1/60) (actor_jumping, empty_readout)
      (by with_unfolding_all decide) (by with_unfolding_all decide)).1
     ⟨by with_unfolding_all decide, by with_unfolding_all decide⟩⟩

/-- C3: update_movmode maps the angle bands to Floor / LeftWall / Ceiling /
RightWall, leaves the movement mode unchanged at the four boundary angles, and
negates gsp exactly on the Ceiling-to-Floor transition. -/
theorem update_movmode_quadrants (pa : PhysicsActor)
    (h0 : 0 ≤ pa.angle) (h1 : pa.angle < 256) :
    ((pa.angle < 0x20 ∨ pa.angle > 0xE0) → (update_movmode pa).movmode = MM.floor) ∧
    ((0x20 < pa.angle ∧ pa.angle < 0x60) → (update_movmode pa).movmode = MM.leftwall) ∧
    ((0x60 < pa.angle ∧ pa.angle < 0xA0) → (update_movmode pa).movmode = MM.ceiling) ∧
    ((0xA0 < pa.angle ∧ pa.angle < 0xE0) → (update_movmode pa).movmode = MM.rightwall) ∧
    ((pa.angle = 0x20 ∨ pa.angle = 0x60 ∨ pa.angle = 0xA0 ∨ pa.angle = 0xE0) →
       (update_movmode pa).movmode = pa.movmode ∧ (update_movmode pa).gsp = pa.gsp) ∧
    (pa.movmode = MM.ceiling ∧ (pa.angle < 0x20 ∨ pa.angle > 0xE0) →
       (update_movmode pa).gsp = -pa.gsp) ∧
    (¬(pa.movmode = MM.ceiling ∧ (pa.angle < 0x20 ∨ pa.angle > 0xE0)) →
       (update_movmode pa).gsp = pa.gsp) := by
  simp only [update_movmode]
  split_ifs with ha hc hb hcc hd
  · exact ⟨fun _ => rfl, fun hx => False.elim (by omega), fun hx => False.elim (by omega),
      fun hx => False.elim (by omega), fun hx => False.elim (by omega),
      fun _ => rfl, fun hx => absurd ⟨hc, ha⟩ hx⟩
  · exact ⟨fun _ => rfl, fun hx => False.elim (by omega), fun hx => False.elim (by omega),
      fun hx => False.elim (by omega), fun hx => False.elim (by omega),
      fun hx => absurd hx.1 hc, fun _ => rfl⟩
  · exact ⟨fun hx => absurd hx ha, fun _ => rfl, fun hx => False.elim (by omega),
      fun hx => False.elim (by omega), fun hx => False.elim (by omega),
      fun hx => absurd hx.2 ha, fun _ => rfl⟩
  · exact ⟨fun hx => absurd hx ha, fun hx => False.elim (by omega), fun _ => rfl,
      fun hx => False.elim (by omega), fun hx => False.elim (by omega),
      fun hx => absurd hx.2 ha, fun _ => rfl⟩
  · exact ⟨fun hx => absurd hx ha, fun hx => False.elim (by omega),
      fun hx => False.elim (by omega), fun _ => rfl, fun hx => False.elim (by omega),
      fun hx => absurd hx.2 ha, fun _ => rfl⟩
  · exact ⟨fun hx => absurd hx ha, fun hx => False.elim (by omega),
      fun hx => False.elim (by omega), fun hx => False.elim (by omega),
      fun _ => ⟨rfl, rfl⟩, fun hx => absurd hx.2 ha, fun _ => rfl⟩

/-- Witness for C3 at angle 0. -/
theorem update_movmode_quadrants_witness :
    0 ≤ actor_midair.angle ∧ actor_midair.angle < 256 ∧
    (((actor_midair.angle < 0x20 ∨ actor_midair.angle > 0xE0) →
        (update_movmode actor_midair).movmode = MM.floor) ∧
     ((0x20 < actor_midair.angle ∧ actor_midair.angle < 0x60) →
        (update_movmode actor_midair).movmode = MM.leftwall) ∧
     ((0x60 < actor_midair.angle ∧ actor_midair.angle < 0xA0) →
        (update_movmode actor_midair).movmode = MM.ceiling) ∧
     ((0xA0 < actor_midair.angle ∧ actor_midair.angle < 0xE0) →
        (update_movmode actor_midair).movmode = MM.rightwall) ∧
     ((actor_midair.angle = 0x20 ∨ actor_midair.angle = 0x60 ∨
       actor_midair.angle = 0xA0 ∨ actor_midair.angle = 0xE0) →
        (update_movmode actor_midair).movmode = actor_midair.movmode ∧
        (update_movmode actor_midair).gsp = actor_midair.gsp) ∧
     (actor_midair.movmode = MM.ceiling ∧
        (actor_midair.angle < 0x20 ∨ actor_midair.angle > 0xE0) →
        (update_movmode actor_midair).gsp = -actor_midair.gsp) ∧
     (¬(actor_midair.movmode = MM.ceiling ∧
        (actor_midair.angle < 0x20 ∨ actor_midair.angle > 0xE0)) →
        (update_movmode actor_midair).gsp = actor_midair.gsp)) :=
  ⟨by with_unfolding_all decide, by with_unfolding_all decide,
   update_movmode_quadrants actor_midair (by with_unfolding_all decide)
     (by with_unfolding_all decide)⟩

/-- C4: each update first adds dt to reference_time; if the result is at most
fixed_time + 1/60 the simulation runs exactly once with timestep 1/60 and
fixed_time advances by 1/60, otherwise it runs exactly once with the real dt and
fixed_time is set to the accumulated reference_time. -/
theorem physicsactor_update_driver (map : ObstacleMap) (pa : PhysicsActor) (dt : ℚ) :
    ((pa.reference_time + dt ≤ pa.fixed_time + FIXED_TIMESTEP) →
       physicsactor_update map pa dt =
         (let pa1 := { update_inside_wall map pa with
                         reference_time := pa.reference_time + dt }
          let pa2 := run_simulation map pa1 FIXED_TIMESTEP
          { pa2 with fixed_time := pa2.fixed_time + FIXED_TIMESTEP })) ∧
    (¬(pa.reference_time + dt ≤ pa.fixed_time + FIXED_TIMESTEP) →
       physicsactor_update map pa dt =
         (let pa1 := { update_inside_wall map pa with
                         reference_time := pa.reference_time + dt }
          let pa2 := run_simulation map pa1 dt
          { pa2 with fixed_time := pa2.reference_time })) := by
  constructor
  · intro h
    simp only [physicsactor_update, update_inside_wall]
    rw [if_pos h]
  · intro h
    simp only [physicsactor_update, update_inside_wall]
    rw [if_neg h]

/-- C9: a tick that starts Dead or Drowned only applies gravity (clamped at
topyspeed) to ysp, advances position.y by ysp*dt, forces facing right, and performs
the initial sensor read bookkeeping; everything else, including position.x, xsp,
gsp, angle, movmode, state, layer, the input and all timers, is unchanged and no
collision response runs. -/
theorem death_tick_effects (map : ObstacleMap) (pa : PhysicsActor) (dt : ℚ)
    (h : pa.state = PAS.dead ∨ pa.state = PAS.drowned) :
    (run_simulation map pa dt).xsp = pa.xsp ∧
    (run_simulation map pa dt).gsp = pa.gsp ∧
    (run_simulation map pa dt).position.x = pa.position.x ∧
    (run_simulation map pa dt).angle = pa.angle ∧
    (run_simulation map pa dt).movmode = pa.movmode ∧
    (run_simulation map pa dt).state = pa.state ∧
    (run_simulation map pa dt).layer = pa.layer ∧
    (run_simulation map pa dt).hlock_timer = pa.hlock_timer ∧
    (run_simulation map pa dt).jump_lock_timer = pa.jump_lock_timer ∧
    (run_simulation map pa dt).wait_timer = pa.wait_timer ∧
    (run_simulation map pa dt).midair_timer = pa.midair_timer ∧
    (run_simulation map pa dt).breathe_timer = pa.breathe_timer ∧
    (run_simulation map pa dt).input = pa.input ∧
    (run_simulation map pa dt).facing_right = true ∧
    (run_simulation map pa dt).ysp = qmin (pa.ysp + pa.grv * dt) pa.topyspeed ∧
    (run_simulation map pa dt).position.y =
      pa.position.y + (run_simulation map pa dt).ysp * dt ∧
    (run_simulation map pa dt).was_midair = (update_sensors map pa).1.midair ∧
    (run_simulation map pa dt).midair = (update_sensors map pa).1.midair ∧
    (run_simulation map pa dt).touching_ceiling =
      (update_sensors map pa).1.touching_ceiling := by
  have hcond : ((update_sensors map pa).1).state = PAS.dead ∨
      ((update_sensors map pa).1).state = PAS.drowned := h
  simp only [run_simulation]
  rw [if_pos hcond]
  exact ⟨rfl, rfl, rfl, rfl, rfl, rfl, rfl, rfl, rfl, rfl, rfl, rfl, rfl, rfl, rfl, rfl,
    rfl, rfl, rfl⟩

/-- Witness for C9 at a concrete dead actor over the empty map. -/
theorem death_tick_effects_witness :
    (actor_dead.state = PAS.dead ∨ actor_dead.state = PAS.drowned) ∧
    ((run_simulation empty_map actor_dead (1/60)).xsp = actor_dead.xsp ∧
     (run_simulation empty_map actor_dead (1/60)).gsp = actor_dead.gsp ∧
     (run_simulation empty_map actor_dead (1/60)).position.x = actor_dead.position.x ∧
     (run_simulation empty_map actor_dead (1/60)).angle = actor_dead.angle ∧
     (run_simulation empty_map actor_dead (1/60)).movmode = actor_dead.movmode ∧
     (run_simulation empty_map actor_dead (1/60)).state = actor_dead.state ∧
     (run_simulation empty_map actor_dead (1/60)).layer = actor_dead.layer ∧
     (run_simulation empty_map actor_dead (1/60)).hlock_timer = actor_dead.hlock_timer ∧
     (run_simulation empty_map actor_dead (1/60)).jump_lock_timer =
       actor_dead.jump_lock_timer ∧
     (run_simulation empty_map actor_dead (1/60)).wait_timer = actor_dead.wait_timer ∧
     (run_simulation empty_map actor_dead (1/60)).midair_timer = actor_dead.midair_timer ∧
     (run_simulation empty_map actor_dead (1/60)).breathe_timer =
       actor_dead.breathe_timer ∧
     (run_simulation empty_map actor_dead (1/60)).input = actor_dead.input ∧
     (run_simulation empty_map actor_dead (1/60)).facing_right = true ∧
     (run_simulation empty_map actor_dead (1/60)).ysp =
       qmin (actor_dead.ysp + actor_dead.grv * (1/60)) actor_dead.topyspeed ∧
     (run_simulation empty_map actor_dead (1/60)).position.y =
       actor_dead.position.y + (run_simulation empty_map actor_dead (1/60)).ysp * (1/60) ∧
     (run_simulation empty_map actor_dead (1/60)).was_midair =
       (update_sensors empty_map actor_dead).1.midair ∧
     (run_simulation empty_map actor_dead (1/60)).midair =
       (update_sensors empty_map actor_dead).1.midair ∧
     (run_simulation empty_map actor_dead (1/60)).touching_ceiling =
       (update_sensors empty_map actor_dead).1.touching_ceiling) :=
  ⟨Or.inl rfl, death_tick_effects empty_map actor_dead (1/60) (Or.inl rfl)⟩

/-- Counterexample to C1 as stated: with two distinct clouds under A and B in Floor
mode whose ground positions differ by more than 8, update_sensors drops the reading
on the higher cloud (ground y 15, under A) and keeps the lower one (ground y 30,
under B) - the opposite of the claim. -/
theorem cloud_pair_drops_higher_cex :
    cloud_high.solid = false ∧ cloud_low.solid = false ∧
    cloud_high.id ≠ cloud_low.id ∧
    actor_midair.movmode = MM.floor ∧
    cloud_high.ground_position (-9) 20 GD.down = 15 ∧
    cloud_low.ground_position 9 20 GD.down = 30 ∧
    (update_sensors two_clouds_map actor_midair).2.at_A = none ∧
    (update_sensors two_clouds_map actor_midair).2.at_B = some cloud_low := by
  refine ⟨rfl, rfl, by decide, by with_unfolding_all decide, rfl, rfl, ?_, ?_⟩
  · with_unfolding_all rfl
  · with_unfolding_all rfl

/-- C1 (amended): when A and B read two distinct non-solid clouds in Floor mode
whose down-facing ground positions at the sensor tails differ by more than 8, the
reading on the lower cloud (the larger ground y) is kept and the reading on the
higher cloud is dropped. -/
theorem filter_cloud_pair_keeps_lower (pa : PhysicsActor) (a b : Sensor)
    (oa ob : Obstacle) (hm : pa.movmode = MM.floor) (hid : oa.id ≠ ob.id)
    (hsa : oa.solid = false) (hsb : ob.solid = false)
    (hgt : |oa.ground_position (sensor_tail a pa.position pa.movmode).x
              (sensor_tail a pa.position pa.movmode).y GD.down -
            ob.ground_position (sensor_tail b pa.position pa.movmode).x
              (sensor_tail b pa.position pa.movmode).y GD.down| > 8) :
    (oa.ground_position (sensor_tail a pa.position pa.movmode).x
       (sensor_tail a pa.position pa.movmode).y GD.down <
     ob.ground_position (sensor_tail b pa.position pa.movmode).x
       (sensor_tail b pa.position pa.movmode).y GD.down →
       filter_cloud_pair pa a b (some oa) (some ob) = (none, some ob)) ∧
    (ob.ground_position (sensor_tail b pa.position pa.movmode).x
       (sensor_tail b pa.position pa.movmode).y GD.down ≤
     oa.ground_position (sensor_tail a pa.position pa.movmode).x
       (sensor_tail a pa.position pa.movmode).y GD.down →
       filter_cloud_pair pa a b (some oa) (some ob) = (some oa, none)) := by
  constructor
  · intro hlt
    simp only [filter_cloud_pair]
    rw [if_pos ⟨hid, by simp [hsa], by simp [hsb]⟩, if_pos hm, if_pos hgt, if_pos hlt]
  · intro hle
    simp only [filter_cloud_pair]
    rw [if_pos ⟨hid, by simp [hsa], by simp [hsb]⟩, if_pos hm, if_pos hgt,
      if_neg (not_lt.mpr hle)]

/-- Witness for the amended C1 at the two concrete clouds. -/
theorem filter_cloud_pair_keeps_lower_witness :
    actor_midair.movmode = MM.floor ∧
    cloud_high.id ≠ cloud_low.id ∧
    cloud_high.solid = false ∧ cloud_low.solid = false ∧
    |cloud_high.ground_position
        (sensor_tail A_intheair actor_midair.position actor_midair.movmode).x
        (sensor_tail A_intheair actor_midair.position actor_midair.movmode).y GD.down -
      cloud_low.ground_position
        (sensor_tail B_intheair actor_midair.position actor_midair.movmode).x
        (sensor_tail B_intheair actor_midair.position actor_midair.movmode).y GD.down| > 8 ∧
    (cloud_high.ground_position
        (sensor_tail A_intheair actor_midair.position actor_midair.movmode).x
        (sensor_tail A_intheair actor_midair.position actor_midair.movmode).y GD.down <
     cloud_low.ground_position
        (sensor_tail B_intheair actor_midair.position actor_midair.movmode).x
        (sensor_tail B_intheair actor_midair.position actor_midair.movmode).y GD.down →
       filter_cloud_pair actor_midair A_intheair B_intheair
         (some cloud_high) (some cloud_low) = (none, some cloud_low)) :=
  ⟨by with_unfolding_all decide, by decide, rfl, rfl, by with_unfolding_all decide,
   (filter_cloud_pair_keeps_lower actor_midair A_intheair B_intheair cloud_high cloud_low
      (by with_unfolding_all decide) (by decide) rfl rfl
      (by with_unfolding_all decide)).1⟩

/-- Counterexample to C2 as stated: a tick of the full simulation that ends grounded
with |gsp| > capspeed (landing at xsp = 2000 restores gsp from the airborne
velocity after the ground-speed clamp has already run). -/
theorem gsp_capspeed_tick_cex :
    (run_simulation flat_floor_map actor_falling_fast (1/60)).midair = false ∧
    |(run_simulation flat_floor_map actor_falling_fast (1/60)).gsp| >
      (run_simulation flat_floor_map actor_falling_fast (1/60)).capspeed := by
  constructor
  · with_unfolding_all decide
  · with_unfolding_all decide

/-- A symmetric clip is bounded by the cap (helper). -/
theorem abs_clip_le (x c : ℚ) (hc : 0 ≤ c) : |clip x (-c) c| ≤ c := by
  unfold clip qmin qmax
  split_ifs <;> rw [abs_le] <;> constructor <;> linarith

/-- C2 (amended): the ground-speed section clamps gsp into [-capspeed, capspeed]
whenever the actor is grounded when it runs (for a nonnegative capspeed); the paths
later in the tick that reassign gsp from the airborne velocity do not re-clamp, as
the counterexample shows. -/
theorem step_ground_speed_caps_gsp (pa : PhysicsActor)
    (hm : pa.midair = false) (hc : 0 ≤ pa.capspeed) :
    |(step_ground_speed pa).gsp| ≤ (step_ground_speed pa).capspeed := by
  have hs : step_ground_speed pa =
      { pa with gsp := clip pa.gsp (-pa.capspeed) pa.capspeed,
                xsp := clip pa.gsp (-pa.capspeed) pa.capspeed * COS pa.angle,
                ysp := clip pa.gsp (-pa.capspeed) pa.capspeed * (-SIN pa.angle) } := by
    unfold step_ground_speed
    rw [if_pos (by simp [hm])]
  rw [hs]
  exact abs_clip_le pa.gsp pa.capspeed hc

/-- Witness for the amended C2 at a concrete grounded actor. -/
theorem step_ground_speed_caps_gsp_witness :
    actor_grounded_fast.midair = false ∧ 0 ≤ actor_grounded_fast.capspeed ∧
    |(step_ground_speed actor_grounded_fast).gsp| ≤
      (step_ground_speed actor_grounded_fast).capspeed :=
  ⟨by with_unfolding_all decide, by with_unfolding_all decide,
   step_ground_speed_caps_gsp actor_grounded_fast (by with_unfolding_all decide)
     (by with_unfolding_all decide)⟩
